import Mathlib

/-!
Shallow embedding of the navitia transit model core: `src/model.rs`
(the `Collections` bag, `Collections::merge`, `Model::new`,
`into_collections`, the serde delegation) and `get_agency_id` of
`src/gtfs/read.rs`.  The `collection`, `relations` and `objects` modules
are not part of this repository snapshot, so their operations are
modelled from the spec (sections 3, 4.1 and 4.2), each such definition
carrying a doc comment starting with `Modelled from the spec:`.
Indices (`Idx`) are represented by `Nat`, index sets by `Finset Nat`.
-/

/-- Errors of the model core.  `duplicateId` carries the colliding
identifier (insert and merge failures); `invalidId` carries the name of
the relation or field and the unresolved identifier (referential
integrity failures, as in the `format_err` calls of `Model::new`);
`msg` is a plain error message (as in `get_agency_id`). -/
inductive Err where
  | duplicateId (i : String)
  | invalidId (name : String) (i : String)
  | msg (s : String)
deriving DecidableEq

/-- Modelled from the spec: the identification trait of `collection.rs`
(not under src); every identified entity exposes its unique string id. -/
class HasId (α : Type) where
  getId : α → String

/-- Modelled from the spec: `CollectionWithId` of `collection.rs` (not
under src), an ordered sequence of entities with unique string ids and
id lookup; iteration order is insertion order. -/
structure CollectionWithId (α : Type) where
  items : List α
deriving DecidableEq

/-- Modelled from the spec: id-to-position lookup (`get_idx`). -/
def CollectionWithId.get_idx [HasId α] (c : CollectionWithId α) (i : String) : Option Nat :=
  c.items.findIdx? (fun x => HasId.getId x == i)

/-- Modelled from the spec: insertion (`push`), appending the entity and
failing with a duplicate-id error, leaving the collection unchanged,
when the id already exists. -/
def CollectionWithId.push [HasId α] (c : CollectionWithId α) (x : α) :
    Except Err (CollectionWithId α) :=
  if c.items.any (fun y => HasId.getId y == HasId.getId x) then
    .error (.duplicateId (HasId.getId x))
  else
    .ok ⟨c.items ++ [x]⟩

/-- Modelled from the spec: the loop of `CollectionWithId::merge`,
pushing the incoming entities one by one and stopping at the first
collision; entities pushed before the collision are retained. -/
def CollectionWithId.mergeFrom [HasId α] :
    CollectionWithId α → List α → CollectionWithId α × Option Err
  | c, [] => (c, none)
  | c, x :: xs =>
    match c.push x with
    | .ok c2 => CollectionWithId.mergeFrom c2 xs
    | .error e => (c, some e)

/-- Modelled from the spec: `CollectionWithId::merge`, fail-fast on the
first id collision, reporting the offending id. -/
def CollectionWithId.merge [HasId α] (c other : CollectionWithId α) :
    CollectionWithId α × Option Err :=
  CollectionWithId.mergeFrom c other.items

/-- Modelled from the spec: the plain `Collection` of `collection.rs`
(not under src), positional storage for entities without natural ids. -/
structure Collection (α : Type) where
  items : List α
deriving DecidableEq

/-- Modelled from the spec: `Collection::merge` appends and never fails
(there are no ids to collide). -/
def Collection.merge (c other : Collection α) : Collection α :=
  ⟨c.items ++ other.items⟩

/-- Modelled from the spec: insert-or-overwrite on the feed-metadata
key-value map (a `HashMap` in the source, represented here as an
association list). -/
def mapInsert (m : List (String × String)) (k v : String) : List (String × String) :=
  if m.any (fun p => p.1 == k) then
    m.map (fun p => if p.1 == k then (k, v) else p)
  else m ++ [(k, v)]

/-- Modelled from the spec: `HashMap::extend`, inserting every pair of
the incoming map, overwriting on key collision. -/
def mapExtend (m other : List (String × String)) : List (String × String) :=
  other.foldl (fun acc p => mapInsert acc p.1 p.2) m

/-- Lookup in the feed-metadata map: the value of the first pair whose
key matches. -/
def mapLookup (m : List (String × String)) (k : String) : Option String :=
  match m with
  | [] => none
  | p :: rest => if p.1 == k then some p.2 else mapLookup rest k


/-! Entity records.  Modelled from the spec: `objects.rs` is not under
src; each record keeps its identifier and the foreign-key fields that
`model.rs` and `gtfs/read.rs` read (other payload fields are
irrelevant to the relations and are omitted). -/

/-- Modelled from the spec: contributor entity. -/
structure Contributor where
  id : String
deriving DecidableEq

/-- Modelled from the spec: dataset entity with its contributor foreign key. -/
structure Dataset where
  id : String
  contributor_id : String
deriving DecidableEq

/-- Modelled from the spec: network entity. -/
structure Network where
  id : String
deriving DecidableEq

/-- Modelled from the spec: commercial-mode entity. -/
structure CommercialMode where
  id : String
deriving DecidableEq

/-- Modelled from the spec: line entity with network and commercial-mode foreign keys. -/
structure Line where
  id : String
  network_id : String
  commercial_mode_id : String
deriving DecidableEq

/-- Modelled from the spec: route entity with its line foreign key. -/
structure Route where
  id : String
  line_id : String
deriving DecidableEq

/-- Modelled from the spec: physical-mode entity. -/
structure PhysicalMode where
  id : String
deriving DecidableEq

/-- Modelled from the spec: stop-area entity. -/
structure StopArea where
  id : String
deriving DecidableEq

/-- Modelled from the spec: stop-point entity with its stop-area foreign key. -/
structure StopPoint where
  id : String
  stop_area_id : String
deriving DecidableEq

/-- Stop time of a vehicle journey; as in `Model::new`, it carries an
already-resolved stop-point index (`st.stop_point_idx`). -/
structure StopTime where
  stop_point_idx : Nat
deriving DecidableEq

/-- Modelled from the spec: vehicle-journey entity with its route,
physical-mode, dataset and company foreign keys and its ordered
stop-time list (fields visible in `gtfs/read.rs`). -/
structure VehicleJourney where
  id : String
  route_id : String
  physical_mode_id : String
  dataset_id : String
  company_id : String
  stop_times : List StopTime
deriving DecidableEq

/-- Modelled from the spec: calendar entity. -/
structure Calendar where
  id : String
deriving DecidableEq

/-- Modelled from the spec: company entity. -/
structure Company where
  id : String
deriving DecidableEq

/-- Modelled from the spec: comment entity. -/
structure Comment where
  id : String
deriving DecidableEq

/-- Modelled from the spec: equipment entity. -/
structure Equipment where
  id : String
deriving DecidableEq

/-- Transfer entity, with the fields shown in the doc example of
`Model::new`: two stop-point foreign keys, two optional durations and
an optional equipment id; it has no natural identifier. -/
structure Transfer where
  from_stop_id : String
  to_stop_id : String
  min_transfer_time : Option Nat
  real_min_transfer_time : Option Nat
  equipment_id : Option String
deriving DecidableEq

/-- Modelled from the spec: trip-property entity. -/
structure TripProperty where
  id : String
deriving DecidableEq

/-- Modelled from the spec: geometry entity. -/
structure Geometry where
  id : String
deriving DecidableEq

/-- Modelled from the spec: admin-station record (held in a plain
`Collection`, addressed positionally). -/
structure AdminStation where
  admin_id : String
  stop_id : String
deriving DecidableEq

instance : HasId Contributor := ⟨Contributor.id⟩
instance : HasId Dataset := ⟨Dataset.id⟩
instance : HasId Network := ⟨Network.id⟩
instance : HasId CommercialMode := ⟨CommercialMode.id⟩
instance : HasId Line := ⟨Line.id⟩
instance : HasId Route := ⟨Route.id⟩
instance : HasId PhysicalMode := ⟨PhysicalMode.id⟩
instance : HasId StopArea := ⟨StopArea.id⟩
instance : HasId StopPoint := ⟨StopPoint.id⟩
instance : HasId VehicleJourney := ⟨VehicleJourney.id⟩
instance : HasId Calendar := ⟨Calendar.id⟩
instance : HasId Company := ⟨Company.id⟩
instance : HasId Comment := ⟨Comment.id⟩
instance : HasId Equipment := ⟨Equipment.id⟩
instance : HasId TripProperty := ⟨TripProperty.id⟩
instance : HasId Geometry := ⟨Geometry.id⟩

/-- The set of collections representing the model (`Collections` of
`model.rs`), fields in source order. -/
structure Collections where
  contributors : CollectionWithId Contributor
  datasets : CollectionWithId Dataset
  networks : CollectionWithId Network
  commercial_modes : CollectionWithId CommercialMode
  lines : CollectionWithId Line
  routes : CollectionWithId Route
  vehicle_journeys : CollectionWithId VehicleJourney
  physical_modes : CollectionWithId PhysicalMode
  stop_areas : CollectionWithId StopArea
  stop_points : CollectionWithId StopPoint
  feed_infos : List (String × String)
  calendars : CollectionWithId Calendar
  companies : CollectionWithId Company
  comments : CollectionWithId Comment
  equipments : CollectionWithId Equipment
  transfers : Collection Transfer
  trip_properties : CollectionWithId TripProperty
  geometries : CollectionWithId Geometry
  admin_stations : Collection AdminStation
deriving DecidableEq

/-- The default (empty) `Collections`. -/
def Collections.default : Collections :=
  ⟨⟨[]⟩, ⟨[]⟩, ⟨[]⟩, ⟨[]⟩, ⟨[]⟩, ⟨[]⟩, ⟨[]⟩, ⟨[]⟩, ⟨[]⟩, ⟨[]⟩, [],
   ⟨[]⟩, ⟨[]⟩, ⟨[]⟩, ⟨[]⟩, ⟨[]⟩, ⟨[]⟩, ⟨[]⟩, ⟨[]⟩⟩

/-- `Collections::merge` of `model.rs`: merge each member collection
consecutively, in field order, propagating the first error with `?`;
`feed_infos` is combined with `extend`, and the two plain collections
(`transfers`, `admin_stations`) append without failing.  State mutated
before a failure is kept, as with `&mut self` in the source. -/
def Collections.merge (s c : Collections) : Collections × Option Err :=
  match s.contributors.merge c.contributors with
  | (contributors, some e) => ({ s with contributors }, some e)
  | (contributors, none) =>
  match s.datasets.merge c.datasets with
  | (datasets, some e) => ({ s with contributors, datasets }, some e)
  | (datasets, none) =>
  match s.networks.merge c.networks with
  | (networks, some e) => ({ s with contributors, datasets, networks }, some e)
  | (networks, none) =>
  match s.commercial_modes.merge c.commercial_modes with
  | (commercial_modes, some e) =>
    ({ s with contributors, datasets, networks, commercial_modes }, some e)
  | (commercial_modes, none) =>
  match s.lines.merge c.lines with
  | (lines, some e) =>
    ({ s with contributors, datasets, networks, commercial_modes, lines }, some e)
  | (lines, none) =>
  match s.routes.merge c.routes with
  | (routes, some e) =>
    ({ s with contributors, datasets, networks, commercial_modes, lines, routes }, some e)
  | (routes, none) =>
  match s.vehicle_journeys.merge c.vehicle_journeys with
  | (vehicle_journeys, some e) =>
    ({ s with contributors, datasets, networks, commercial_modes, lines, routes, vehicle_journeys }, some e)
  | (vehicle_journeys, none) =>
  match s.physical_modes.merge c.physical_modes with
  | (physical_modes, some e) =>
    ({ s with contributors, datasets, networks, commercial_modes, lines, routes, vehicle_journeys, physical_modes }, some e)
  | (physical_modes, none) =>
  match s.stop_areas.merge c.stop_areas with
  | (stop_areas, some e) =>
    ({ s with contributors, datasets, networks, commercial_modes, lines, routes, vehicle_journeys, physical_modes, stop_areas }, some e)
  | (stop_areas, none) =>
  match s.stop_points.merge c.stop_points with
  | (stop_points, some e) =>
    ({ s with contributors, datasets, networks, commercial_modes, lines, routes, vehicle_journeys, physical_modes, stop_areas, stop_points }, some e)
  | (stop_points, none) =>
  let feed_infos := mapExtend s.feed_infos c.feed_infos
  match s.calendars.merge c.calendars with
  | (calendars, some e) =>
    ({ s with contributors, datasets, networks, commercial_modes, lines, routes, vehicle_journeys, physical_modes, stop_areas, stop_points, feed_infos, calendars }, some e)
  | (calendars, none) =>
  match s.companies.merge c.companies with
  | (companies, some e) =>
    ({ s with contributors, datasets, networks, commercial_modes, lines, routes, vehicle_journeys, physical_modes, stop_areas, stop_points, feed_infos, calendars, companies }, some e)
  | (companies, none) =>
  match s.comments.merge c.comments with
  | (comments, some e) =>
    ({ s with contributors, datasets, networks, commercial_modes, lines, routes, vehicle_journeys, physical_modes, stop_areas, stop_points, feed_infos, calendars, companies, comments }, some e)
  | (comments, none) =>
  match s.equipments.merge c.equipments with
  | (equipments, some e) =>
    ({ s with contributors, datasets, networks, commercial_modes, lines, routes, vehicle_journeys, physical_modes, stop_areas, stop_points, feed_infos, calendars, companies, comments, equipments }, some e)
  | (equipments, none) =>
  let transfers := s.transfers.merge c.transfers
  match s.trip_properties.merge c.trip_properties with
  | (trip_properties, some e) =>
    ({ s with contributors, datasets, networks, commercial_modes, lines, routes, vehicle_journeys, physical_modes, stop_areas, stop_points, feed_infos, calendars, companies, comments, equipments, transfers, trip_properties }, some e)
  | (trip_properties, none) =>
  match s.geometries.merge c.geometries with
  | (geometries, some e) =>
    ({ s with contributors, datasets, networks, commercial_modes, lines, routes, vehicle_journeys, physical_modes, stop_areas, stop_points, feed_infos, calendars, companies, comments, equipments, transfers, trip_properties, geometries }, some e)
  | (geometries, none) =>
  let admin_stations := s.admin_stations.merge c.admin_stations
  ({ contributors, datasets, networks, commercial_modes, lines, routes, vehicle_journeys, physical_modes, stop_areas, stop_points, feed_infos, calendars, companies, comments, equipments, transfers, trip_properties, geometries, admin_stations }, none)

/-! Relation layer.  `relations.rs` is not under src; `Relation`,
`OneToMany` and `ManyToMany` are modelled from spec section 4.2. -/

/-- Modelled from the spec: a bidirectional relation between indices of
two entity types, with both directions precomputed as maps from an
index to a set of indices. -/
structure Relation where
  fwd : Nat → Finset Nat
  bwd : Nat → Finset Nat

/-- Modelled from the spec: `ManyToMany::from_forward`, building a
direct relation from an explicit forward map (position `i` of the list
holds the target set of left index `i`); the backward direction is the
inversion of the forward map. -/
def ManyToMany.from_forward (l : List (Finset Nat)) : Relation where
  fwd := fun i => (l.get? i).getD ∅
  bwd := fun b => (Finset.range l.length).filter (fun i => b ∈ (l.get? i).getD ∅)

/-- Modelled from the spec: `ManyToMany::from_relations_chain`; for
every A, the union of the B sets reachable through every M related to
that A, and symmetrically backward. -/
def ManyToMany.from_relations_chain (r1 r2 : Relation) : Relation where
  fwd := fun a => (r1.fwd a).biUnion r2.fwd
  bwd := fun b => (r2.bwd b).biUnion r1.bwd

/-- Modelled from the spec: `ManyToMany::from_relations_sink`; A and B
are related exactly when they reach a common M through the forward
directions of the two argument relations. -/
def ManyToMany.from_relations_sink (r1 r2 : Relation) : Relation where
  fwd := fun a => (r1.fwd a).biUnion r2.bwd
  bwd := fun b => (r2.fwd b).biUnion r1.bwd

/-- Modelled from the spec: the foreign-key resolution loop of
`OneToMany::new`; resolves the key of every right entity in order and
fails, naming the relation and the unresolved id, on the first entity
whose key does not resolve. -/
def resolveFks [HasId α] (left : CollectionWithId α) (fk : β → String)
    (name : String) : List β → Except Err (List Nat)
  | [] => .ok []
  | x :: xs =>
    match left.get_idx (fk x) with
    | none => .error (.invalidId name (fk x))
    | some i =>
      match resolveFks left fk name xs with
      | .error e => .error e
      | .ok rest => .ok (i :: rest)

/-- Relation built from a resolved foreign-key list: right index `j`
points backward to `resolved j`, and left index `l` points forward to
every `j` with `resolved j = l`. -/
def relationOfResolved (resolved : List Nat) : Relation where
  fwd := fun l => (Finset.range resolved.length).filter (fun j => resolved.get? j = some l)
  bwd := fun j => match resolved.get? j with
    | some l => {l}
    | none => ∅

/-- Modelled from the spec: `OneToMany::new(left, right, name)`,
resolving the foreign key of every right entity into a left index and
precomputing both directions; fails with a referential-integrity error
naming the relation and the unresolved id. -/
def OneToMany.new [HasId α] [HasId β] (left : CollectionWithId α)
    (right : CollectionWithId β) (fk : β → String) (name : String) :
    Except Err Relation :=
  (resolveFks left fk name right.items).map relationOfResolved

/-- The navitia transit model (`Model` of `model.rs`): the owned
`Collections` plus every original and shortcut relation. -/
structure Model where
  collections : Collections
  networks_to_lines : Relation
  commercial_modes_to_lines : Relation
  lines_to_routes : Relation
  routes_to_vehicle_journeys : Relation
  physical_modes_to_vehicle_journeys : Relation
  stop_areas_to_stop_points : Relation
  contributors_to_datasets : Relation
  datasets_to_vehicle_journeys : Relation
  companies_to_vehicle_journeys : Relation
  vehicle_journeys_to_stop_points : Relation
  transfers_to_stop_points : Relation
  routes_to_stop_points : Relation
  physical_modes_to_stop_points : Relation
  physical_modes_to_routes : Relation
  datasets_to_stop_points : Relation
  datasets_to_routes : Relation
  datasets_to_physical_modes : Relation

/-- Resolution of one transfer in `Model::new`: look up the two
endpoint ids in the stop-point collection, failing with the exact
field name and offending id of the source's `format_err` calls, and
collect the two resolved indices into an index set. -/
def resolveTransfer (stop_points : CollectionWithId StopPoint) (tr : Transfer) :
    Except Err (Finset Nat) :=
  match stop_points.get_idx tr.from_stop_id with
  | none => .error (.invalidId "transfer.from_stop_id" tr.from_stop_id)
  | some a =>
    match stop_points.get_idx tr.to_stop_id with
    | none => .error (.invalidId "transfer.to_stop_id" tr.to_stop_id)
    | some b => .ok (insert a {b})

/-- The `forward_tr_to_sp` collection loop of `Model::new`: resolve
every transfer in order, stopping at the first failure. -/
def resolveTransfers (stop_points : CollectionWithId StopPoint) :
    List Transfer → Except Err (List (Finset Nat))
  | [] => .ok []
  | t :: ts =>
    match resolveTransfer stop_points t with
    | .error e => .error e
    | .ok s =>
      match resolveTransfers stop_points ts with
      | .error e => .error e
      | .ok rest => .ok (s :: rest)

/-- The `forward_vj_to_sp` map of `Model::new`: for every vehicle
journey, in order, the set of stop-point indices of its stop times. -/
def forwardVjToSp (c : Collections) : List (Finset Nat) :=
  c.vehicle_journeys.items.map
    (fun vj => (vj.stop_times.map (fun st => st.stop_point_idx)).toFinset)

/-- `Model::new` of `model.rs`, with the source's evaluation order:
collect `forward_vj_to_sp`, resolve `forward_tr_to_sp` (first fallible
step), build the vehicle-journey to stop-point direct relation, the
three primitive relations used for derivation, then, in the order of
the source's struct literal, the six derived relations, the transfer
direct relation, and the six remaining primitive relations; the
collections are owned by the resulting model unchanged. -/
def Model.new (c : Collections) : Except Err Model :=
  let forward_vj_to_sp := forwardVjToSp c
  match resolveTransfers c.stop_points c.transfers.items with
  | .error e => .error e
  | .ok forward_tr_to_sp =>
  let vehicle_journeys_to_stop_points := ManyToMany.from_forward forward_vj_to_sp
  match OneToMany.new c.routes c.vehicle_journeys
      (fun vj => vj.route_id) "routes_to_vehicle_journeys" with
  | .error e => .error e
  | .ok routes_to_vehicle_journeys =>
  match OneToMany.new c.physical_modes c.vehicle_journeys
      (fun vj => vj.physical_mode_id) "physical_modes_to_vehicle_journeys" with
  | .error e => .error e
  | .ok physical_modes_to_vehicle_journeys =>
  match OneToMany.new c.datasets c.vehicle_journeys
      (fun vj => vj.dataset_id) "datasets_to_vehicle_journeys" with
  | .error e => .error e
  | .ok datasets_to_vehicle_journeys =>
  let routes_to_stop_points := ManyToMany.from_relations_chain
    routes_to_vehicle_journeys vehicle_journeys_to_stop_points
  let physical_modes_to_stop_points := ManyToMany.from_relations_chain
    physical_modes_to_vehicle_journeys vehicle_journeys_to_stop_points
  let physical_modes_to_routes := ManyToMany.from_relations_sink
    physical_modes_to_vehicle_journeys routes_to_vehicle_journeys
  let datasets_to_stop_points := ManyToMany.from_relations_chain
    datasets_to_vehicle_journeys vehicle_journeys_to_stop_points
  let datasets_to_routes := ManyToMany.from_relations_sink
    datasets_to_vehicle_journeys routes_to_vehicle_journeys
  let datasets_to_physical_modes := ManyToMany.from_relations_sink
    datasets_to_vehicle_journeys physical_modes_to_vehicle_journeys
  let transfers_to_stop_points := ManyToMany.from_forward forward_tr_to_sp
  match OneToMany.new c.networks c.lines
      (fun l => l.network_id) "networks_to_lines" with
  | .error e => .error e
  | .ok networks_to_lines =>
  match OneToMany.new c.commercial_modes c.lines
      (fun l => l.commercial_mode_id) "commercial_modes_to_lines" with
  | .error e => .error e
  | .ok commercial_modes_to_lines =>
  match OneToMany.new c.lines c.routes
      (fun r => r.line_id) "lines_to_routes" with
  | .error e => .error e
  | .ok lines_to_routes =>
  match OneToMany.new c.stop_areas c.stop_points
      (fun sp => sp.stop_area_id) "stop_areas_to_stop_points" with
  | .error e => .error e
  | .ok stop_areas_to_stop_points =>
  match OneToMany.new c.contributors c.datasets
      (fun d => d.contributor_id) "contributors_to_datasets" with
  | .error e => .error e
  | .ok contributors_to_datasets =>
  match OneToMany.new c.companies c.vehicle_journeys
      (fun vj => vj.company_id) "companies_to_vehicle_journeys" with
  | .error e => .error e
  | .ok companies_to_vehicle_journeys =>
  .ok { collections := c, networks_to_lines, commercial_modes_to_lines,
        lines_to_routes, routes_to_vehicle_journeys,
        physical_modes_to_vehicle_journeys, stop_areas_to_stop_points,
        contributors_to_datasets, datasets_to_vehicle_journeys,
        companies_to_vehicle_journeys, vehicle_journeys_to_stop_points,
        transfers_to_stop_points, routes_to_stop_points,
        physical_modes_to_stop_points, physical_modes_to_routes,
        datasets_to_stop_points, datasets_to_routes,
        datasets_to_physical_modes }

/-- `Model::into_collections`, consuming the model and giving back its
owned collections. -/
def Model.into_collections (m : Model) : Collections :=
  m.collections

/-- The `Serialize` impl for `Model`: serializing a model delegates
entirely to its owned collections.  The external serde encoding of
`Collections` is modelled from the spec as the faithful `Collections`
value itself. -/
def Model.serialize (m : Model) : Collections :=
  m.collections

/-- The `Deserialize` impl for `Model`: deserialize a `Collections`
value, then re-run `Model::new` on it. -/
def Model.deserialize (s : Collections) : Except Err Model :=
  Model.new s

/-- `get_agency_id` of `gtfs/read.rs`: the route's own agency id when
present; otherwise the sole network's id when the network collection
has exactly one element, and an error (no silent default) with zero or
several networks. -/
structure GtfsRoute where
  id : String
  agency_id : Option String
  short_name : String
  long_name : String
deriving DecidableEq

/-- `get_agency_id` of `gtfs/read.rs`, translated clause by clause from
the `match networks.values().next()` of the source. -/
def get_agency_id (route : GtfsRoute) (networks : CollectionWithId Network) :
    Except Err String :=
  match route.agency_id with
  | some a => .ok a
  | none =>
    match networks.items with
    | [] => .error (.msg "Impossible to get agency id, no network found")
    | n :: _ =>
      if networks.items.length == 1 then .ok n.id
      else .error (.msg "Impossible to get agency id, several networks found")

/-! Build order of `Model::new`.  Rust evaluates the fields of a struct
literal in their written order, so the derived relations of the
literal (lines 202 to 226 of `model.rs`) are constructed before the
six primitive relations written after them (lines 231 to 252). -/

/-- One step of `Model::new`, tagged by kind: collecting the already
resolved vehicle-journey stop-time indices, resolving the transfer
endpoint ids, building a direct many-to-many relation, a primitive
one-to-many relation, a chain derivation, a sink derivation, or taking
ownership of the collections. -/
inductive BuildStep where
  | collectVjStopTimes
  | resolveTransferEndpoints
  | buildDirect (name : String)
  | buildPrimitive (name : String)
  | buildChain (name : String)
  | buildSink (name : String)
  | takeOwnership
deriving DecidableEq

/-- The sequence of build steps `Model::new` performs on `c`, in the
evaluation order of the source (struct literal fields in written
order), truncated at the first failing step. -/
def Model.newBuildTrace (c : Collections) : List BuildStep :=
  [BuildStep.collectVjStopTimes, BuildStep.resolveTransferEndpoints] ++
  match resolveTransfers c.stop_points c.transfers.items with
  | .error _ => []
  | .ok _ =>
  [BuildStep.buildDirect "vehicle_journeys_to_stop_points",
   BuildStep.buildPrimitive "routes_to_vehicle_journeys"] ++
  match OneToMany.new c.routes c.vehicle_journeys
      (fun vj => vj.route_id) "routes_to_vehicle_journeys" with
  | .error _ => []
  | .ok _ =>
  [BuildStep.buildPrimitive "physical_modes_to_vehicle_journeys"] ++
  match OneToMany.new c.physical_modes c.vehicle_journeys
      (fun vj => vj.physical_mode_id) "physical_modes_to_vehicle_journeys" with
  | .error _ => []
  | .ok _ =>
  [BuildStep.buildPrimitive "datasets_to_vehicle_journeys"] ++
  match OneToMany.new c.datasets c.vehicle_journeys
      (fun vj => vj.dataset_id) "datasets_to_vehicle_journeys" with
  | .error _ => []
  | .ok _ =>
  [BuildStep.buildChain "routes_to_stop_points",
   BuildStep.buildChain "physical_modes_to_stop_points",
   BuildStep.buildSink "physical_modes_to_routes",
   BuildStep.buildChain "datasets_to_stop_points",
   BuildStep.buildSink "datasets_to_routes",
   BuildStep.buildSink "datasets_to_physical_modes",
   BuildStep.buildDirect "transfers_to_stop_points",
   BuildStep.buildPrimitive "networks_to_lines"] ++
  match OneToMany.new c.networks c.lines
      (fun l => l.network_id) "networks_to_lines" with
  | .error _ => []
  | .ok _ =>
  [BuildStep.buildPrimitive "commercial_modes_to_lines"] ++
  match OneToMany.new c.commercial_modes c.lines
      (fun l => l.commercial_mode_id) "commercial_modes_to_lines" with
  | .error _ => []
  | .ok _ =>
  [BuildStep.buildPrimitive "lines_to_routes"] ++
  match OneToMany.new c.lines c.routes
      (fun r => r.line_id) "lines_to_routes" with
  | .error _ => []
  | .ok _ =>
  [BuildStep.buildPrimitive "stop_areas_to_stop_points"] ++
  match OneToMany.new c.stop_areas c.stop_points
      (fun sp => sp.stop_area_id) "stop_areas_to_stop_points" with
  | .error _ => []
  | .ok _ =>
  [BuildStep.buildPrimitive "contributors_to_datasets"] ++
  match OneToMany.new c.contributors c.datasets
      (fun d => d.contributor_id) "contributors_to_datasets" with
  | .error _ => []
  | .ok _ =>
  [BuildStep.buildPrimitive "companies_to_vehicle_journeys"] ++
  match OneToMany.new c.companies c.vehicle_journeys
      (fun vj => vj.company_id) "companies_to_vehicle_journeys" with
  | .error _ => []
  | .ok _ => [BuildStep.takeOwnership]

/-- The full build trace of a successful `Model::new`, as an explicit
list of steps. -/
def fullBuildTrace : List BuildStep :=
  [BuildStep.collectVjStopTimes, BuildStep.resolveTransferEndpoints,
   BuildStep.buildDirect "vehicle_journeys_to_stop_points",
   BuildStep.buildPrimitive "routes_to_vehicle_journeys",
   BuildStep.buildPrimitive "physical_modes_to_vehicle_journeys",
   BuildStep.buildPrimitive "datasets_to_vehicle_journeys",
   BuildStep.buildChain "routes_to_stop_points",
   BuildStep.buildChain "physical_modes_to_stop_points",
   BuildStep.buildSink "physical_modes_to_routes",
   BuildStep.buildChain "datasets_to_stop_points",
   BuildStep.buildSink "datasets_to_routes",
   BuildStep.buildSink "datasets_to_physical_modes",
   BuildStep.buildDirect "transfers_to_stop_points",
   BuildStep.buildPrimitive "networks_to_lines",
   BuildStep.buildPrimitive "commercial_modes_to_lines",
   BuildStep.buildPrimitive "lines_to_routes",
   BuildStep.buildPrimitive "stop_areas_to_stop_points",
   BuildStep.buildPrimitive "contributors_to_datasets",
   BuildStep.buildPrimitive "companies_to_vehicle_journeys",
   BuildStep.takeOwnership]

/-! Relation registry of the `GetCorresponding` derive on `Model`: one
entry per relation field, in field order, with the declared weight
(the six shortcut fields carry `weight = 1.9`; the others keep the
default weight 1.0 of the derive). -/

/-- Endpoint entity types of the relations registered on `Model`. -/
inductive EntityType where
  | network
  | commercialMode
  | line
  | route
  | vehicleJourney
  | physicalMode
  | stopArea
  | stopPoint
  | contributor
  | dataset
  | company
  | transfer
deriving DecidableEq, Fintype

/-- One registered relation of the `Model` struct: its endpoint types,
its declared weight in tenths (the annotation string 1.9 is the value
19, the derive default 1.0 is the value 10) and its field name. -/
structure RelationDecl where
  source : EntityType
  target : EntityType
  weightTenths : Nat
  name : String
deriving DecidableEq

/-- The relation fields of `Model` in declaration order with their
declared weights: the eleven original relations at the default weight
1.0 and the six shortcut fields annotated `weight = 1.9`. -/
def modelRelationDecls : List RelationDecl :=
  [⟨.network, .line, 10, "networks_to_lines"⟩,
   ⟨.commercialMode, .line, 10, "commercial_modes_to_lines"⟩,
   ⟨.line, .route, 10, "lines_to_routes"⟩,
   ⟨.route, .vehicleJourney, 10, "routes_to_vehicle_journeys"⟩,
   ⟨.physicalMode, .vehicleJourney, 10, "physical_modes_to_vehicle_journeys"⟩,
   ⟨.stopArea, .stopPoint, 10, "stop_areas_to_stop_points"⟩,
   ⟨.contributor, .dataset, 10, "contributors_to_datasets"⟩,
   ⟨.dataset, .vehicleJourney, 10, "datasets_to_vehicle_journeys"⟩,
   ⟨.company, .vehicleJourney, 10, "companies_to_vehicle_journeys"⟩,
   ⟨.vehicleJourney, .stopPoint, 10, "vehicle_journeys_to_stop_points"⟩,
   ⟨.transfer, .stopPoint, 10, "transfers_to_stop_points"⟩,
   ⟨.route, .stopPoint, 19, "routes_to_stop_points"⟩,
   ⟨.physicalMode, .stopPoint, 19, "physical_modes_to_stop_points"⟩,
   ⟨.physicalMode, .route, 19, "physical_modes_to_routes"⟩,
   ⟨.dataset, .stopPoint, 19, "datasets_to_stop_points"⟩,
   ⟨.dataset, .route, 19, "datasets_to_routes"⟩,
   ⟨.dataset, .physicalMode, 19, "datasets_to_physical_modes"⟩]

/-- The six shortcut relation names (the fields of `Model` annotated
with `weight = 1.9`). -/
def shortcutNames : List String :=
  ["routes_to_stop_points", "physical_modes_to_stop_points",
   "physical_modes_to_routes", "datasets_to_stop_points",
   "datasets_to_routes", "datasets_to_physical_modes"]

/-- A declaration serves the unordered endpoint pair (a, b) when its
endpoints are a and b in either direction. -/
def RelationDecl.serves (d : RelationDecl) (a b : EntityType) : Bool :=
  (d.source == a && d.target == b) || (d.source == b && d.target == a)

/-- The registered relations serving the unordered pair (a, b). -/
def candidatesFor (a b : EntityType) : List RelationDecl :=
  modelRelationDecls.filter (fun d => d.serves a b)

/-- Modelled from the spec: the dispatch of `get_corresponding`, which
selects, among the relations whose endpoint types are the requested
pair, the one with the lowest declared weight. -/
def dispatchFor (a b : EntityType) : Option RelationDecl :=
  (candidatesFor a b).foldl
    (fun best d =>
      match best with
      | none => some d
      | some b0 => if d.weightTenths < b0.weightTenths then some d else some b0)
    none

/-- Decidable equality on `Except`, for evaluating results on concrete
inputs. -/
instance [DecidableEq ε] [DecidableEq α] : DecidableEq (Except ε α) := fun x y =>
  match x, y with
  | .ok a, .ok b =>
    if h : a = b then isTrue (by rw [h])
    else isFalse (by intro hh; cases hh; exact h rfl)
  | .ok _, .error _ => isFalse (by intro hh; cases hh)
  | .error _, .ok _ => isFalse (by intro hh; cases hh)
  | .error a, .error b =>
    if h : a = b then isTrue (by rw [h])
    else isFalse (by intro hh; cases hh; exact h rfl)

/-- The relation with empty forward and backward maps. -/
def Relation.void : Relation :=
  ⟨fun _ => ∅, fun _ => ∅⟩

/-- A default model value (empty collections, empty relations), used
only to extract the model of a known-successful construction. -/
def Model.empty : Model :=
  ⟨Collections.default, Relation.void, Relation.void, Relation.void,
   Relation.void, Relation.void, Relation.void, Relation.void, Relation.void,
   Relation.void, Relation.void, Relation.void, Relation.void, Relation.void,
   Relation.void, Relation.void, Relation.void, Relation.void⟩

/-- The model of a construction result, defaulting to `Model.empty`
when the construction failed. -/
def modelOf (r : Except Err Model) : Model :=
  r.toOption.getD Model.empty

/-- A fixture with one route, two vehicle journeys on it carrying two
different physical modes, and three distinct stop points touched in
total, plus one valid transfer; every foreign key resolves. -/
def cFix : Collections :=
  { contributors := ⟨[⟨"ct1"⟩]⟩
    datasets := ⟨[⟨"ds1", "ct1"⟩]⟩
    networks := ⟨[⟨"n1"⟩]⟩
    commercial_modes := ⟨[⟨"cm1"⟩]⟩
    lines := ⟨[⟨"l1", "n1", "cm1"⟩]⟩
    routes := ⟨[⟨"r1", "l1"⟩]⟩
    vehicle_journeys := ⟨[⟨"vj1", "r1", "pm1", "ds1", "co1", [⟨0⟩, ⟨1⟩]⟩,
                          ⟨"vj2", "r1", "pm2", "ds1", "co1", [⟨1⟩, ⟨2⟩]⟩]⟩
    physical_modes := ⟨[⟨"pm1"⟩, ⟨"pm2"⟩]⟩
    stop_areas := ⟨[⟨"sa1"⟩]⟩
    stop_points := ⟨[⟨"sp1", "sa1"⟩, ⟨"sp2", "sa1"⟩, ⟨"sp3", "sa1"⟩]⟩
    feed_infos := []
    calendars := ⟨[]⟩
    companies := ⟨[⟨"co1"⟩]⟩
    comments := ⟨[]⟩
    equipments := ⟨[]⟩
    transfers := ⟨[⟨"sp1", "sp2", none, none, none⟩]⟩
    trip_properties := ⟨[]⟩
    geometries := ⟨[]⟩
    admin_stations := ⟨[]⟩ }

/-- The doc-example fixture of `Model::new`: default collections with
one transfer whose endpoints name no stop point. -/
def cBadTransfer : Collections :=
  { Collections.default with
    transfers := ⟨[⟨"invalid", "also_invalid", none, none, none⟩]⟩ }


/-- Every transfer endpoint id of the bag resolves to a stop point. -/
def transfersResolve (c : Collections) : Prop :=
  ∀ t ∈ c.transfers.items,
    (c.stop_points.get_idx t.from_stop_id).isSome = true ∧
    (c.stop_points.get_idx t.to_stop_id).isSome = true

/-- Every explicit foreign key of the bag resolves: transfer endpoints
and the nine scanned foreign-key fields. -/
def allFksResolve (c : Collections) : Prop :=
  transfersResolve c ∧
  (∀ vj ∈ c.vehicle_journeys.items, (c.routes.get_idx vj.route_id).isSome = true) ∧
  (∀ vj ∈ c.vehicle_journeys.items, (c.physical_modes.get_idx vj.physical_mode_id).isSome = true) ∧
  (∀ vj ∈ c.vehicle_journeys.items, (c.datasets.get_idx vj.dataset_id).isSome = true) ∧
  (∀ l ∈ c.lines.items, (c.networks.get_idx l.network_id).isSome = true) ∧
  (∀ l ∈ c.lines.items, (c.commercial_modes.get_idx l.commercial_mode_id).isSome = true) ∧
  (∀ r ∈ c.routes.items, (c.lines.get_idx r.line_id).isSome = true) ∧
  (∀ sp ∈ c.stop_points.items, (c.stop_areas.get_idx sp.stop_area_id).isSome = true) ∧
  (∀ d ∈ c.datasets.items, (c.contributors.get_idx d.contributor_id).isSome = true) ∧
  (∀ vj ∈ c.vehicle_journeys.items, (c.companies.get_idx vj.company_id).isSome = true)

instance (c : Collections) : Decidable (transfersResolve c) := by
  unfold transfersResolve; infer_instance

instance (c : Collections) : Decidable (allFksResolve c) := by
  unfold allFksResolve; infer_instance

/-- The id list of an entity list. -/
def idsOf {α : Type} [HasId α] (l : List α) : List String := l.map HasId.getId

/-- Modelled from the spec: the merge precondition of one collection
pair; the incoming ids are distinct among themselves and disjoint from
the receiver's. -/
def canMerge {α : Type} [HasId α] (c other : CollectionWithId α) : Prop :=
  (idsOf other.items).Nodup ∧
  ∀ x ∈ other.items, ∀ y ∈ c.items, HasId.getId y ≠ HasId.getId x

instance {α : Type} [HasId α] (c other : CollectionWithId α) :
    Decidable (canMerge c other) := by
  unfold canMerge idsOf; infer_instance

/-- The per-collection merge errors of `Collections::merge`, in the
execution order of the source (the infallible `feed_infos`,
`transfers` and `admin_stations` steps carry no entry). -/
def mergeFieldErrs (s c : Collections) : List (Option Err) :=
  [(s.contributors.merge c.contributors).2,
   (s.datasets.merge c.datasets).2,
   (s.networks.merge c.networks).2,
   (s.commercial_modes.merge c.commercial_modes).2,
   (s.lines.merge c.lines).2,
   (s.routes.merge c.routes).2,
   (s.vehicle_journeys.merge c.vehicle_journeys).2,
   (s.physical_modes.merge c.physical_modes).2,
   (s.stop_areas.merge c.stop_areas).2,
   (s.stop_points.merge c.stop_points).2,
   (s.calendars.merge c.calendars).2,
   (s.companies.merge c.companies).2,
   (s.comments.merge c.comments).2,
   (s.equipments.merge c.equipments).2,
   (s.trip_properties.merge c.trip_properties).2,
   (s.geometries.merge c.geometries).2]

/-- Collision-freedom of every id-keyed collection pair. -/
def canMergeAll (s c : Collections) : Prop :=
  canMerge s.contributors c.contributors ∧
  canMerge s.datasets c.datasets ∧
  canMerge s.networks c.networks ∧
  canMerge s.commercial_modes c.commercial_modes ∧
  canMerge s.lines c.lines ∧
  canMerge s.routes c.routes ∧
  canMerge s.vehicle_journeys c.vehicle_journeys ∧
  canMerge s.physical_modes c.physical_modes ∧
  canMerge s.stop_areas c.stop_areas ∧
  canMerge s.stop_points c.stop_points ∧
  canMerge s.calendars c.calendars ∧
  canMerge s.companies c.companies ∧
  canMerge s.comments c.comments ∧
  canMerge s.equipments c.equipments ∧
  canMerge s.trip_properties c.trip_properties ∧
  canMerge s.geometries c.geometries

instance (s c : Collections) : Decidable (canMergeAll s c) := by
  unfold canMergeAll; infer_instance

/-- The field-wise union of two collections bags: id-keyed collections
and plain collections appended, feed metadata extended. -/
def unionAll (s c : Collections) : Collections :=
  ⟨⟨s.contributors.items ++ c.contributors.items⟩,
   ⟨s.datasets.items ++ c.datasets.items⟩,
   ⟨s.networks.items ++ c.networks.items⟩,
   ⟨s.commercial_modes.items ++ c.commercial_modes.items⟩,
   ⟨s.lines.items ++ c.lines.items⟩,
   ⟨s.routes.items ++ c.routes.items⟩,
   ⟨s.vehicle_journeys.items ++ c.vehicle_journeys.items⟩,
   ⟨s.physical_modes.items ++ c.physical_modes.items⟩,
   ⟨s.stop_areas.items ++ c.stop_areas.items⟩,
   ⟨s.stop_points.items ++ c.stop_points.items⟩,
   mapExtend s.feed_infos c.feed_infos,
   ⟨s.calendars.items ++ c.calendars.items⟩,
   ⟨s.companies.items ++ c.companies.items⟩,
   ⟨s.comments.items ++ c.comments.items⟩,
   ⟨s.equipments.items ++ c.equipments.items⟩,
   ⟨s.transfers.items ++ c.transfers.items⟩,
   ⟨s.trip_properties.items ++ c.trip_properties.items⟩,
   ⟨s.geometries.items ++ c.geometries.items⟩,
   ⟨s.admin_stations.items ++ c.admin_stations.items⟩⟩

/-- The first k per-collection merge steps all succeed. -/
def prefixOk (s c : Collections) (k : Nat) : Prop :=
  ∀ eo ∈ (mergeFieldErrs s c).take k, eo = none

instance (s c : Collections) (k : Nat) : Decidable (prefixOk s c k) := by
  unfold prefixOk; infer_instance
/-- Fixtures for the merge claims: ids a,b merged into ids b,c collide
on b; ids a,b merged into ids c,d are disjoint. -/
def cMergeX : Collections :=
  { Collections.default with contributors := ⟨[⟨"a"⟩, ⟨"b"⟩]⟩ }

/-- Receiver with contributor ids b and c. -/
def cMergeY : Collections :=
  { Collections.default with contributors := ⟨[⟨"b"⟩, ⟨"c"⟩]⟩ }

/-- Receiver with contributor ids c and d. -/
def cMergeD : Collections :=
  { Collections.default with contributors := ⟨[⟨"c"⟩, ⟨"d"⟩]⟩ }
/-- Feed-metadata fixtures: both bags carry the key k with different
values; the incoming bag also carries b, the receiver a. -/
def cFeedS : Collections :=
  { Collections.default with feed_infos := [("k", "v1"), ("a", "x")] }

/-- Incoming collections whose feed metadata overlaps the receiver on k. -/
def cFeedC : Collections :=
  { Collections.default with feed_infos := [("k", "v2"), ("b", "y")] }

/-- Characterization of a successful `Except.map`. -/
lemma except_map_ok {ε α β : Type} {f : α → β} {x : Except ε α} {b : β} :
    x.map f = .ok b ↔ ∃ a, x = .ok a ∧ f a = b := by
  cases x <;> simp [Except.map]

lemma modelNew_ok_inv {c : Collections} {m : Model} (hh : Model.new c = .ok m) :
    m.collections = c ∧
    m.vehicle_journeys_to_stop_points = ManyToMany.from_forward (forwardVjToSp c) ∧
    (∃ res, resolveFks c.routes (fun vj => vj.route_id) "routes_to_vehicle_journeys"
        c.vehicle_journeys.items = .ok res ∧
      m.routes_to_vehicle_journeys = relationOfResolved res) ∧
    (∃ res, resolveFks c.physical_modes (fun vj => vj.physical_mode_id)
        "physical_modes_to_vehicle_journeys" c.vehicle_journeys.items = .ok res ∧
      m.physical_modes_to_vehicle_journeys = relationOfResolved res) ∧
    m.routes_to_stop_points = ManyToMany.from_relations_chain
      m.routes_to_vehicle_journeys m.vehicle_journeys_to_stop_points ∧
    m.physical_modes_to_routes = ManyToMany.from_relations_sink
      m.physical_modes_to_vehicle_journeys m.routes_to_vehicle_journeys := by
  unfold Model.new at hh
  cases h1 : resolveTransfers c.stop_points c.transfers.items with
  | error e => rw [h1] at hh; exact Except.noConfusion hh
  | ok ftr =>
    rw [h1] at hh
    cases h2 : OneToMany.new c.routes c.vehicle_journeys (fun vj => vj.route_id) "routes_to_vehicle_journeys" with
    | error e => rw [h2] at hh; exact Except.noConfusion hh
    | ok r2vj =>
      rw [h2] at hh
      cases h3 : OneToMany.new c.physical_modes c.vehicle_journeys (fun vj => vj.physical_mode_id) "physical_modes_to_vehicle_journeys" with
      | error e => rw [h3] at hh; exact Except.noConfusion hh
      | ok pm2vj =>
        rw [h3] at hh
        cases h4 : OneToMany.new c.datasets c.vehicle_journeys (fun vj => vj.dataset_id) "datasets_to_vehicle_journeys" with
        | error e => rw [h4] at hh; exact Except.noConfusion hh
        | ok ds2vj =>
          rw [h4] at hh
          cases h5 : OneToMany.new c.networks c.lines (fun l => l.network_id) "networks_to_lines" with
          | error e => rw [h5] at hh; exact Except.noConfusion hh
          | ok n2l =>
            rw [h5] at hh
            cases h6 : OneToMany.new c.commercial_modes c.lines (fun l => l.commercial_mode_id) "commercial_modes_to_lines" with
            | error e => rw [h6] at hh; exact Except.noConfusion hh
            | ok cm2l =>
              rw [h6] at hh
              cases h7 : OneToMany.new c.lines c.routes (fun r => r.line_id) "lines_to_routes" with
              | error e => rw [h7] at hh; exact Except.noConfusion hh
              | ok l2r =>
                rw [h7] at hh
                cases h8 : OneToMany.new c.stop_areas c.stop_points (fun sp => sp.stop_area_id) "stop_areas_to_stop_points" with
                | error e => rw [h8] at hh; exact Except.noConfusion hh
                | ok sa2sp =>
                  rw [h8] at hh
                  cases h9 : OneToMany.new c.contributors c.datasets (fun d => d.contributor_id) "contributors_to_datasets" with
                  | error e => rw [h9] at hh; exact Except.noConfusion hh
                  | ok ct2ds =>
                    rw [h9] at hh
                    cases h10 : OneToMany.new c.companies c.vehicle_journeys (fun vj => vj.company_id) "companies_to_vehicle_journeys" with
                    | error e => rw [h10] at hh; exact Except.noConfusion hh
                    | ok co2vj =>
                      rw [h10] at hh
                      rw [Except.ok.injEq] at hh
                      subst hh
                      refine ⟨rfl, rfl, ?_, ?_, rfl, rfl⟩
                      · obtain ⟨res, hres, hrel⟩ := except_map_ok.mp h2
                        exact ⟨res, hres, hrel.symm⟩
                      · obtain ⟨res, hres, hrel⟩ := except_map_ok.mp h3
                        exact ⟨res, hres, hrel.symm⟩

lemma modelNew_ok_trace {c : Collections} {m : Model} (hh : Model.new c = .ok m) :
    Model.newBuildTrace c = fullBuildTrace := by
  unfold Model.new at hh
  cases h1 : resolveTransfers c.stop_points c.transfers.items with
  | error e => rw [h1] at hh; exact Except.noConfusion hh
  | ok ftr =>
    rw [h1] at hh
    cases h2 : OneToMany.new c.routes c.vehicle_journeys (fun vj => vj.route_id) "routes_to_vehicle_journeys" with
    | error e => rw [h2] at hh; exact Except.noConfusion hh
    | ok r2vj =>
      rw [h2] at hh
      cases h3 : OneToMany.new c.physical_modes c.vehicle_journeys (fun vj => vj.physical_mode_id) "physical_modes_to_vehicle_journeys" with
      | error e => rw [h3] at hh; exact Except.noConfusion hh
      | ok pm2vj =>
        rw [h3] at hh
        cases h4 : OneToMany.new c.datasets c.vehicle_journeys (fun vj => vj.dataset_id) "datasets_to_vehicle_journeys" with
        | error e => rw [h4] at hh; exact Except.noConfusion hh
        | ok ds2vj =>
          rw [h4] at hh
          cases h5 : OneToMany.new c.networks c.lines (fun l => l.network_id) "networks_to_lines" with
          | error e => rw [h5] at hh; exact Except.noConfusion hh
          | ok n2l =>
            rw [h5] at hh
            cases h6 : OneToMany.new c.commercial_modes c.lines (fun l => l.commercial_mode_id) "commercial_modes_to_lines" with
            | error e => rw [h6] at hh; exact Except.noConfusion hh
            | ok cm2l =>
              rw [h6] at hh
              cases h7 : OneToMany.new c.lines c.routes (fun r => r.line_id) "lines_to_routes" with
              | error e => rw [h7] at hh; exact Except.noConfusion hh
              | ok l2r =>
                rw [h7] at hh
                cases h8 : OneToMany.new c.stop_areas c.stop_points (fun sp => sp.stop_area_id) "stop_areas_to_stop_points" with
                | error e => rw [h8] at hh; exact Except.noConfusion hh
                | ok sa2sp =>
                  rw [h8] at hh
                  cases h9 : OneToMany.new c.contributors c.datasets (fun d => d.contributor_id) "contributors_to_datasets" with
                  | error e => rw [h9] at hh; exact Except.noConfusion hh
                  | ok ct2ds =>
                    rw [h9] at hh
                    cases h10 : OneToMany.new c.companies c.vehicle_journeys (fun vj => vj.company_id) "companies_to_vehicle_journeys" with
                    | error e => rw [h10] at hh; exact Except.noConfusion hh
                    | ok co2vj =>
                      rw [h10] at hh
                      simp only [Model.newBuildTrace, h1, h2, h3, h4, h5, h6, h7, h8, h9, h10]
                      rfl


lemma resolveFks_ok {α β : Type} [HasId α] [HasId β] {left : CollectionWithId α}
    {fk : β → String} {name : String} {xs : List β}
    (h : ∀ x ∈ xs, (left.get_idx (fk x)).isSome = true) :
    ∃ res, resolveFks left fk name xs = .ok res := by
  induction xs with
  | nil => exact ⟨[], rfl⟩
  | cons x xs ih =>
    have hx := h x (by simp)
    cases hg : left.get_idx (fk x) with
    | none => rw [hg] at hx; simp at hx
    | some i =>
      obtain ⟨res, hres⟩ := ih (fun y hy => h y (by simp [hy]))
      exact ⟨i :: res, by simp [resolveFks, hg, hres]⟩

lemma oneToMany_ok {α β : Type} [HasId α] [HasId β] {left : CollectionWithId α}
    {right : CollectionWithId β} {fk : β → String} (name : String)
    (h : ∀ x ∈ right.items, (left.get_idx (fk x)).isSome = true) :
    ∃ res, resolveFks left fk name right.items = .ok res ∧
      OneToMany.new left right fk name = .ok (relationOfResolved res) := by
  obtain ⟨res, hres⟩ := resolveFks_ok h
  exact ⟨res, hres, by unfold OneToMany.new; rw [hres]; rfl⟩

lemma resolveTransfers_ok {sps : CollectionWithId StopPoint} {ts : List Transfer}
    (h : ∀ t ∈ ts, (sps.get_idx t.from_stop_id).isSome = true ∧
      (sps.get_idx t.to_stop_id).isSome = true) :
    ∃ l, resolveTransfers sps ts = .ok l := by
  induction ts with
  | nil => exact ⟨[], rfl⟩
  | cons t ts ih =>
    obtain ⟨hf, ht⟩ := h t (by simp)
    obtain ⟨a, ha⟩ := Option.isSome_iff_exists.mp hf
    obtain ⟨b, hb⟩ := Option.isSome_iff_exists.mp ht
    obtain ⟨l, hl⟩ := ih (fun y hy => h y (by simp [hy]))
    exact ⟨insert a {b} :: l, by simp [resolveTransfers, resolveTransfer, ha, hb, hl]⟩

lemma resolveTransfers_err {sps : CollectionWithId StopPoint} {ts : List Transfer}
    (h : ¬ ∀ t ∈ ts, (sps.get_idx t.from_stop_id).isSome = true ∧
      (sps.get_idx t.to_stop_id).isSome = true) :
    ∃ nm i, resolveTransfers sps ts = .error (.invalidId nm i) ∧
      (nm = "transfer.from_stop_id" ∨ nm = "transfer.to_stop_id") ∧
      sps.get_idx i = none ∧
      ∃ t ∈ ts, t.from_stop_id = i ∨ t.to_stop_id = i := by
  induction ts with
  | nil => exact absurd (by simp) h
  | cons t ts ih =>
    cases hf : sps.get_idx t.from_stop_id with
    | none =>
      refine ⟨"transfer.from_stop_id", t.from_stop_id, ?_, Or.inl rfl, hf,
        t, by simp, Or.inl rfl⟩
      simp [resolveTransfers, resolveTransfer, hf]
    | some a =>
      cases hto : sps.get_idx t.to_stop_id with
      | none =>
        refine ⟨"transfer.to_stop_id", t.to_stop_id, ?_, Or.inr rfl, hto,
          t, by simp, Or.inr rfl⟩
        simp [resolveTransfers, resolveTransfer, hf, hto]
      | some b =>
        have htail : ¬ ∀ x ∈ ts, (sps.get_idx x.from_stop_id).isSome = true ∧
            (sps.get_idx x.to_stop_id).isSome = true := by
          intro hall
          exact h (by
            intro x hx
            rcases List.mem_cons.mp hx with hx1 | hx2
            · subst hx1; exact ⟨by simp [hf], by simp [hto]⟩
            · exact hall x hx2)
        obtain ⟨nm, i, herr, hnm, hnone, t2, ht2, hor⟩ := ih htail
        refine ⟨nm, i, ?_, hnm, hnone, t2, by simp [ht2], hor⟩
        simp [resolveTransfers, resolveTransfer, hf, hto, herr]

lemma modelNew_err_of_transfers {c : Collections} {e : Err}
    (h : resolveTransfers c.stop_points c.transfers.items = .error e) :
    Model.new c = .error e := by
  unfold Model.new
  rw [h]

lemma modelNew_ok_of_resolve {c : Collections} (h : allFksResolve c) :
    ∃ m, Model.new c = .ok m ∧ m.collections = c := by
  obtain ⟨htr, hr, hpm, hds, hn, hcm, hln, hsa, hct, hco⟩ := h
  obtain ⟨ftr, h1⟩ := resolveTransfers_ok htr
  obtain ⟨res2, -, h2⟩ := oneToMany_ok "routes_to_vehicle_journeys" hr
  obtain ⟨res3, -, h3⟩ := oneToMany_ok "physical_modes_to_vehicle_journeys" hpm
  obtain ⟨res4, -, h4⟩ := oneToMany_ok "datasets_to_vehicle_journeys" hds
  obtain ⟨res5, -, h5⟩ := oneToMany_ok "networks_to_lines" hn
  obtain ⟨res6, -, h6⟩ := oneToMany_ok "commercial_modes_to_lines" hcm
  obtain ⟨res7, -, h7⟩ := oneToMany_ok "lines_to_routes" hln
  obtain ⟨res8, -, h8⟩ := oneToMany_ok "stop_areas_to_stop_points" hsa
  obtain ⟨res9, -, h9⟩ := oneToMany_ok "contributors_to_datasets" hct
  obtain ⟨res10, -, h10⟩ := oneToMany_ok "companies_to_vehicle_journeys" hco
  have hmain : ∃ m, Model.new c = .ok m := by
    unfold Model.new
    rw [h1, h2, h3, h4, h5, h6, h7, h8, h9, h10]
    exact ⟨_, rfl⟩
  obtain ⟨m, hm⟩ := hmain
  exact ⟨m, hm, (modelNew_ok_inv hm).1⟩


/-- Membership in the forward direction of a relation built from a
resolved foreign-key list. -/
lemma relationOfResolved_fwd_mem {resolved : List Nat} {r j : Nat} :
    j ∈ (relationOfResolved resolved).fwd r ↔ resolved.get? j = some r := by
  simp only [relationOfResolved, Finset.mem_filter, Finset.mem_range]
  constructor
  · rintro ⟨_, h⟩; exact h
  · intro h
    exact ⟨List.get?_eq_some.mp h |>.choose, h⟩

/-- Membership in the backward direction of a relation built from a
resolved foreign-key list. -/
lemma relationOfResolved_bwd_mem {resolved : List Nat} {r j : Nat} :
    r ∈ (relationOfResolved resolved).bwd j ↔ resolved.get? j = some r := by
  simp only [relationOfResolved]
  cases h : resolved.get? j <;> simp
  exact eq_comm


lemma push_ok {α : Type} [HasId α] {c : CollectionWithId α} {x : α}
    (h : ∀ y ∈ c.items, HasId.getId y ≠ HasId.getId x) :
    c.push x = .ok ⟨c.items ++ [x]⟩ := by
  unfold CollectionWithId.push
  rw [if_neg]
  simp only [List.any_eq_true, not_exists, not_and]
  intro y hy
  simpa using h y hy

lemma mergeFrom_append {α : Type} [HasId α] {c : CollectionWithId α} {xs : List α}
    (hnd : (idsOf xs).Nodup)
    (hdj : ∀ x ∈ xs, ∀ y ∈ c.items, HasId.getId y ≠ HasId.getId x) :
    CollectionWithId.mergeFrom c xs = (⟨c.items ++ xs⟩, none) := by
  induction xs generalizing c with
  | nil => simp [CollectionWithId.mergeFrom]
  | cons x xs ih =>
    have hpush := push_ok (fun y hy => hdj x (by simp) y hy)
    rw [CollectionWithId.mergeFrom, hpush]
    have hnd2 : (idsOf xs).Nodup := by
      simpa [idsOf] using hnd.of_cons
    have hx_not : HasId.getId x ∉ idsOf xs := by
      have h2 := hnd
      rw [idsOf, List.map_cons, List.nodup_cons] at h2
      exact h2.1
    have hdj2 : ∀ z ∈ xs, ∀ y ∈ (⟨c.items ++ [x]⟩ : CollectionWithId α).items,
        HasId.getId y ≠ HasId.getId z := by
      intro z hz y hy
      rcases List.mem_append.mp hy with hy1 | hy2
      · exact hdj z (by simp [hz]) y hy1
      · have : y = x := by simpa using hy2
        subst this
        intro he
        exact hx_not (he ▸ List.mem_map_of_mem HasId.getId hz)
    dsimp only
    rw [ih hnd2 hdj2]
    simp

lemma mergeFrom_none_imp {α : Type} [HasId α] {c : CollectionWithId α} {xs : List α}
    (h : (CollectionWithId.mergeFrom c xs).2 = none) :
    (idsOf xs).Nodup ∧ ∀ x ∈ xs, ∀ y ∈ c.items, HasId.getId y ≠ HasId.getId x := by
  induction xs generalizing c with
  | nil => exact ⟨List.nodup_nil, by simp⟩
  | cons x xs ih =>
    rw [CollectionWithId.mergeFrom] at h
    cases hp : c.push x with
    | error e =>
      rw [hp] at h
      exact Option.noConfusion h
    | ok c2 =>
      rw [hp] at h
      dsimp only at h
      obtain ⟨hnd, hdj⟩ := ih h
      have hok := hp
      unfold CollectionWithId.push at hok
      by_cases hany : (c.items.any fun y => HasId.getId y == HasId.getId x) = true
      · rw [if_pos hany] at hok
        exact Except.noConfusion hok
      · rw [if_neg hany] at hok
        have hc2 : (⟨c.items ++ [x]⟩ : CollectionWithId α) = c2 :=
          (Except.ok.injEq _ _).mp hok
        subst hc2
        have hnotin : ∀ y ∈ c.items, HasId.getId y ≠ HasId.getId x := by
          intro y hy he
          exact hany (List.any_eq_true.mpr ⟨y, hy, by simpa using he⟩)
        constructor
        · rw [idsOf, List.map_cons, List.nodup_cons]
          refine ⟨?_, hnd⟩
          intro hmem
          obtain ⟨z, hz, hze⟩ := List.mem_map.mp hmem
          exact hdj z hz x (by simp) hze.symm
        · intro z hz y hy
          rcases List.mem_cons.mp hz with hz1 | hz2
          · subst hz1; exact hnotin y hy
          · exact hdj z hz2 y (by simp [hy])

lemma merge_none_iff {α : Type} [HasId α] (c other : CollectionWithId α) :
    (CollectionWithId.merge c other).2 = none ↔ canMerge c other := by
  constructor
  · intro h
    exact mergeFrom_none_imp h
  · rintro ⟨hnd, hdj⟩
    unfold CollectionWithId.merge
    rw [mergeFrom_append hnd hdj]

lemma merge_append {α : Type} [HasId α] {c other : CollectionWithId α}
    (h : canMerge c other) :
    CollectionWithId.merge c other = (⟨c.items ++ other.items⟩, none) :=
  mergeFrom_append h.1 h.2

lemma mergeFrom_err_dup {α : Type} [HasId α] {c : CollectionWithId α} {xs : List α}
    {e : Err} (h : (CollectionWithId.mergeFrom c xs).2 = some e) :
    ∃ i, e = .duplicateId i ∧ i ∈ idsOf xs := by
  induction xs generalizing c with
  | nil => exact Option.noConfusion h
  | cons x xs ih =>
    rw [CollectionWithId.mergeFrom] at h
    cases hp : c.push x with
    | error e0 =>
      rw [hp] at h
      dsimp only at h
      have he : e0 = e := by
        simpa using h
      unfold CollectionWithId.push at hp
      by_cases hany : (c.items.any fun y => HasId.getId y == HasId.getId x) = true
      · rw [if_pos hany] at hp
        have : Err.duplicateId (HasId.getId x) = e0 := by
          simpa using hp
        exact ⟨HasId.getId x, by rw [← he, ← this], by simp [idsOf]⟩
      · rw [if_neg hany] at hp
        exact Except.noConfusion hp
    | ok c2 =>
      rw [hp] at h
      dsimp only at h
      obtain ⟨i, hi, hmem⟩ := ih h
      refine ⟨i, hi, ?_⟩
      rw [idsOf, List.map_cons]
      exact List.mem_cons_of_mem _ hmem

lemma merge_err_dup {α : Type} [HasId α] {c other : CollectionWithId α} {e : Err}
    (h : (CollectionWithId.merge c other).2 = some e) :
    ∃ i, e = .duplicateId i ∧ i ∈ idsOf other.items :=
  mergeFrom_err_dup h

lemma collectionsMerge_err (s c : Collections) :
    (Collections.merge s c).2 = (mergeFieldErrs s c).findSome? id := by
  unfold Collections.merge
  repeat' split
  all_goals simp_all [mergeFieldErrs, List.findSome?]

lemma collectionsMerge_none_iff (s c : Collections) :
    (Collections.merge s c).2 = none ↔ canMergeAll s c := by
  unfold Collections.merge canMergeAll
  repeat' split
  all_goals simp_all [← merge_none_iff]

lemma collectionsMerge_union (s c : Collections) (h : canMergeAll s c) :
    Collections.merge s c = (unionAll s c, none) := by
  obtain ⟨h1, h2, h3, h4, h5, h6, h7, h8, h9, h10, h11, h12, h13, h14, h15, h16⟩ := h
  unfold Collections.merge
  rw [merge_append h1, merge_append h2, merge_append h3, merge_append h4,
      merge_append h5, merge_append h6, merge_append h7, merge_append h8,
      merge_append h9, merge_append h10, merge_append h11, merge_append h12,
      merge_append h13, merge_append h14, merge_append h15, merge_append h16]
  rfl

lemma findSome?_id_mem {α : Type} {l : List (Option α)} {b : α}
    (h : l.findSome? id = some b) : some b ∈ l := by
  induction l with
  | nil => exact Option.noConfusion h
  | cons a l ih =>
    cases a with
    | some x =>
      rw [List.findSome?_cons] at h
      simp only [id] at h
      rw [h]
      exact List.mem_cons_self _ _
    | none =>
      rw [List.findSome?_cons] at h
      simp only [id] at h
      exact List.mem_cons_of_mem _ (ih h)

lemma collectionsMerge_err_dup (s c : Collections) (e : Err)
    (he : (Collections.merge s c).2 = some e) : ∃ i, e = .duplicateId i := by
  have hfind : (mergeFieldErrs s c).findSome? id = some e := by
    rw [← collectionsMerge_err]; exact he
  have hmem := findSome?_id_mem hfind
  simp only [mergeFieldErrs, List.mem_cons, List.not_mem_nil, or_false] at hmem
  rcases hmem with h|h|h|h|h|h|h|h|h|h|h|h|h|h|h|h
  all_goals obtain ⟨i, hi, -⟩ := merge_err_dup h.symm
  all_goals exact ⟨i, hi⟩

lemma mapInsert_cons_ne {p : String × String} {m : List (String × String)}
    {k v : String} (hp : (p.1 == k) = false) :
    mapInsert (p :: m) k v = p :: mapInsert m k v := by
  unfold mapInsert
  cases hm : (m.any fun q => q.1 == k) with
  | true =>
    simp only [List.any_cons, hp, Bool.false_or, hm, if_true, List.map_cons]
    rw [if_neg (by simp [hp])]
  | false =>
    simp [List.any_cons, hp, hm]

lemma mapInsert_cons_eq {p : String × String} {m : List (String × String)}
    {k v : String} (hp : (p.1 == k) = true) :
    mapInsert (p :: m) k v =
      (k, v) :: m.map (fun q => if q.1 == k then (k, v) else q) := by
  unfold mapInsert
  simp only [List.any_cons, hp, Bool.true_or, if_true, List.map_cons]

lemma mapLookup_map_ne {m : List (String × String)} {k v k2 : String}
    (hk : (k == k2) = false) :
    mapLookup (m.map (fun q => if q.1 == k then (k, v) else q)) k2 = mapLookup m k2 := by
  induction m with
  | nil => rfl
  | cons q m ih =>
    cases hq : (q.1 == k) with
    | true =>
      have h1 : q.1 = k := by simpa using hq
      rw [List.map_cons, if_pos hq, mapLookup, mapLookup, hk, h1, hk]
      simpa using ih
    | false =>
      rw [List.map_cons, if_neg (by simp [hq]), mapLookup, mapLookup]
      cases hq2 : (q.1 == k2) with
      | true => rfl
      | false => simpa using ih

lemma mapLookup_insert (m : List (String × String)) (k v k2 : String) :
    mapLookup (mapInsert m k v) k2 = if k == k2 then some v else mapLookup m k2 := by
  induction m with
  | nil =>
    unfold mapInsert
    cases hk : (k == k2) <;> simp [mapLookup, hk]
  | cons p m ih =>
    cases hp : (p.1 == k) with
    | true =>
      rw [mapInsert_cons_eq hp]
      have h1 : p.1 = k := by simpa using hp
      cases hk : (k == k2) with
      | true => simp [mapLookup, hk]
      | false =>
        rw [mapLookup, hk, mapLookup_map_ne hk, mapLookup, h1, hk]
        simp
    | false =>
      rw [mapInsert_cons_ne hp, mapLookup, mapLookup]
      cases hp2 : (p.1 == k2) with
      | true =>
        have hkk2 : (k == k2) = false := by
          rcases hcc : (k == k2) with - | -
          · rfl
          · have he : k = k2 := by simpa using hcc
            rw [he] at hp
            rw [hp2] at hp
            exact Bool.noConfusion hp
        simp [hkk2]
      | false => simpa using ih

lemma mapLookup_none_of_not_mem {m : List (String × String)} {k : String}
    (h : k ∉ m.map Prod.fst) : mapLookup m k = none := by
  induction m with
  | nil => rfl
  | cons p m ih =>
    rw [List.map_cons, List.mem_cons] at h
    push_neg at h
    rw [mapLookup, if_neg (by simpa using fun he => h.1 he.symm)]
    exact ih h.2

lemma mapLookup_extend (a b : List (String × String))
    (hb : (b.map Prod.fst).Nodup) (k : String) :
    mapLookup (mapExtend a b) k =
      match mapLookup b k with
      | some v => some v
      | none => mapLookup a k := by
  induction b generalizing a with
  | nil => rfl
  | cons p rest ih =>
    rw [List.map_cons, List.nodup_cons] at hb
    have hstep : mapExtend a (p :: rest) = mapExtend (mapInsert a p.1 p.2) rest := rfl
    rw [hstep, ih _ hb.2, mapLookup]
    cases hk : (p.1 == k) with
    | true =>
      have h1 : p.1 = k := by simpa using hk
      have hrest : mapLookup rest k = none := by
        apply mapLookup_none_of_not_mem
        rw [← h1]
        exact hb.1
      rw [hrest, mapLookup_insert, hk]
      simp
    | false =>
      cases hr : mapLookup rest k with
      | some v => rfl
      | none =>
        rw [mapLookup_insert, hk]
        simp

/-- C1: `Model::new` returns either a full model owning the given
collections or an error, never partial state; it fails with an error
carrying the offending id whenever some transfer endpoint names no
stop point, and succeeds when every foreign key of the collections
resolves. -/
theorem modelNew_transfer_referential_integrity (c : Collections) :
    ((∃ m, Model.new c = .ok m) ∨ (∃ e, Model.new c = .error e)) ∧
    (¬ transfersResolve c →
      ∃ nm i, Model.new c = .error (.invalidId nm i) ∧
        (nm = "transfer.from_stop_id" ∨ nm = "transfer.to_stop_id") ∧
        c.stop_points.get_idx i = none ∧
        ∃ t ∈ c.transfers.items, t.from_stop_id = i ∨ t.to_stop_id = i) ∧
    (allFksResolve c → ∃ m, Model.new c = .ok m ∧ m.collections = c) := by
  refine ⟨?_, ?_, ?_⟩
  · cases h : Model.new c with
    | ok m => exact Or.inl ⟨m, rfl⟩
    | error e => exact Or.inr ⟨e, rfl⟩
  · intro h
    obtain ⟨nm, i, herr, hnm, hnone, ht⟩ := resolveTransfers_err h
    exact ⟨nm, i, modelNew_err_of_transfers herr, hnm, hnone, ht⟩
  · exact modelNew_ok_of_resolve

/-- C1 witness: the doc-example collections with an unresolvable
transfer make construction fail on the offending id, and the
fully-resolving fixture constructs a model owning its collections. -/
theorem modelNew_transfer_referential_integrity_witness :
    (¬ transfersResolve cBadTransfer) ∧ allFksResolve cFix ∧
    (∃ nm i, Model.new cBadTransfer = .error (.invalidId nm i) ∧
      (nm = "transfer.from_stop_id" ∨ nm = "transfer.to_stop_id") ∧
      cBadTransfer.stop_points.get_idx i = none ∧
      ∃ t ∈ cBadTransfer.transfers.items, t.from_stop_id = i ∨ t.to_stop_id = i) ∧
    (∃ m, Model.new cFix = .ok m ∧ m.collections = cFix) :=
  ⟨by decide, by decide,
   (modelNew_transfer_referential_integrity cBadTransfer).2.1 (by decide),
   (modelNew_transfer_referential_integrity cFix).2.2 (by decide)⟩

/-- C2 counterexample: on the default collections, construction
succeeds, yet the build trace holds the derived chain relation
`routes_to_stop_points` at position 6, before the primitive relation
`networks_to_lines` at position 13, so not every primitive relation is
built before every derived relation. -/
theorem modelNew_order_counterexample :
    (Model.new Collections.default).isOk = true ∧
    (Model.newBuildTrace Collections.default).get? 6 =
      some (.buildChain "routes_to_stop_points") ∧
    (Model.newBuildTrace Collections.default).get? 13 =
      some (.buildPrimitive "networks_to_lines") := by
  decide

/-- C2 amended: on every successful construction the build steps of
`Model::new` are exactly `fullBuildTrace`: the vehicle-journey
stop-time collection and the transfer-endpoint resolution, the
vehicle-journey direct relation, the three primitive relations used
for derivation, then the six derived relations and the transfer direct
relation, then the six remaining primitive relations, and finally
taking ownership. -/
theorem modelNew_order_amended {c : Collections} {m : Model}
    (h : Model.new c = .ok m) :
    Model.newBuildTrace c = fullBuildTrace :=
  modelNew_ok_trace h

/-- C2 witness: the amended order theorem applied to the default
collections. -/
theorem modelNew_order_amended_witness :
    Model.new Collections.default = .ok (modelOf (Model.new Collections.default)) ∧
    Model.newBuildTrace Collections.default = fullBuildTrace :=
  ⟨rfl, modelNew_order_amended
    (rfl : Model.new Collections.default = .ok (modelOf (Model.new Collections.default)))⟩

/-- C3: in every successfully constructed model, the derived
`routes_to_stop_points` relation maps each route index to exactly the
union, over every vehicle journey related to that route, of the
stop-point indices occurring in that vehicle journey's stop times. -/
theorem routesToStopPoints_is_union {c : Collections} {m : Model}
    (h : Model.new c = .ok m) (r : Nat) :
    m.routes_to_stop_points.fwd r =
      (m.routes_to_vehicle_journeys.fwd r).biUnion (fun j =>
        ((c.vehicle_journeys.items.get? j).map
          (fun vj => (vj.stop_times.map (fun st => st.stop_point_idx)).toFinset)).getD ∅) := by
  obtain ⟨-, hvj2sp, -, -, hchain, -⟩ := modelNew_ok_inv h
  rw [hchain, hvj2sp]
  unfold ManyToMany.from_relations_chain ManyToMany.from_forward forwardVjToSp
  refine Finset.biUnion_congr rfl (fun j _ => ?_)
  dsimp only
  rw [List.get?_map]

/-- C3 witness: the fixture with one route and two vehicle journeys
touching three distinct stop points in total yields exactly those
three stop points. -/
theorem routesToStopPoints_is_union_witness :
    Model.new cFix = .ok (modelOf (Model.new cFix)) ∧
    (modelOf (Model.new cFix)).routes_to_stop_points.fwd 0 =
      ((modelOf (Model.new cFix)).routes_to_vehicle_journeys.fwd 0).biUnion (fun j =>
        ((cFix.vehicle_journeys.items.get? j).map
          (fun vj => (vj.stop_times.map (fun st => st.stop_point_idx)).toFinset)).getD ∅) ∧
    (modelOf (Model.new cFix)).routes_to_stop_points.fwd 0 = {0, 1, 2} :=
  ⟨rfl, routesToStopPoints_is_union (rfl : Model.new cFix = .ok (modelOf (Model.new cFix))) 0,
   by decide⟩

/-- C4: in every successfully constructed model, the sink-derived
`physical_modes_to_routes` relation relates a physical mode to a route
exactly when some vehicle journey is related to both. -/
theorem physicalModesToRoutes_sink {c : Collections} {m : Model}
    (h : Model.new c = .ok m) (p r : Nat) :
    r ∈ m.physical_modes_to_routes.fwd p ↔
      ∃ j, j ∈ m.physical_modes_to_vehicle_journeys.fwd p ∧
        j ∈ m.routes_to_vehicle_journeys.fwd r := by
  obtain ⟨-, -, ⟨res2, hres2, hr2vj⟩, ⟨res3, hres3, hpm⟩, -, hsink⟩ := modelNew_ok_inv h
  rw [hsink, hr2vj, hpm]
  unfold ManyToMany.from_relations_sink
  simp only [Finset.mem_biUnion]
  constructor
  · rintro ⟨j, hj, hr⟩
    exact ⟨j, hj, relationOfResolved_fwd_mem.mpr (relationOfResolved_bwd_mem.mp hr)⟩
  · rintro ⟨j, hj, hr⟩
    exact ⟨j, hj, relationOfResolved_bwd_mem.mpr (relationOfResolved_fwd_mem.mp hr)⟩

/-- C4 witness: in the fixture, the two vehicle journeys share route 0
but carry physical modes 0 and 1; both physical modes map to exactly
that one route. -/
theorem physicalModesToRoutes_sink_witness :
    Model.new cFix = .ok (modelOf (Model.new cFix)) ∧
    (0 ∈ (modelOf (Model.new cFix)).physical_modes_to_routes.fwd 1 ↔
      ∃ j, j ∈ (modelOf (Model.new cFix)).physical_modes_to_vehicle_journeys.fwd 1 ∧
        j ∈ (modelOf (Model.new cFix)).routes_to_vehicle_journeys.fwd 0) ∧
    (modelOf (Model.new cFix)).physical_modes_to_routes.fwd 0 = {0} ∧
    (modelOf (Model.new cFix)).physical_modes_to_routes.fwd 1 = {0} :=
  ⟨rfl, physicalModesToRoutes_sink (rfl : Model.new cFix = .ok (modelOf (Model.new cFix))) 1 0,
   by decide, by decide⟩

/-- C5: when a route omits its agency id, `get_agency_id` resolves to
the sole network's id exactly when the network collection has exactly
one element, and errs (never silently defaulting) with zero or several
networks. -/
theorem getAgencyId_unique_network (route : GtfsRoute)
    (networks : CollectionWithId Network) (h : route.agency_id = none) :
    (∀ n, networks.items = [n] → get_agency_id route networks = .ok n.id) ∧
    (networks.items.length ≠ 1 →
      ∃ e, get_agency_id route networks = .error (.msg e)) ∧
    (∀ i, get_agency_id route networks = .ok i →
      ∃ n, networks.items = [n] ∧ i = n.id) := by
  refine ⟨?_, ?_, ?_⟩
  · intro n hn
    unfold get_agency_id
    rw [h, hn]
    rfl
  · intro hlen
    unfold get_agency_id
    rw [h]
    cases hn : networks.items with
    | nil => exact ⟨"Impossible to get agency id, no network found", rfl⟩
    | cons n rest =>
      rw [hn] at hlen
      refine ⟨"Impossible to get agency id, several networks found", ?_⟩
      have hc : ((n :: rest).length == 1) = false := by
        simpa using hlen
      have hrest : ¬ rest = [] := by
        intro he; subst he; exact hlen rfl
      simp [hc, hrest]
  · intro i hok
    unfold get_agency_id at hok
    rw [h] at hok
    cases hn : networks.items with
    | nil => rw [hn] at hok; exact Except.noConfusion hok
    | cons n rest =>
      rw [hn] at hok
      cases rest with
      | nil =>
        simp only [List.length_cons, List.length_nil] at hok
        simp only [show ((0 + 1 : Nat) == 1) = true from rfl, if_true] at hok
        exact ⟨n, rfl, ((Except.ok.injEq _ _).mp hok).symm⟩
      | cons m ms =>
        have hc : ((n :: m :: ms).length == 1) = false := by
          simp
        rw [hc] at hok
        simp only [Bool.false_eq_true, if_false] at hok
        exact Except.noConfusion hok

/-- C5 witness: with the agency id omitted, one network resolves to
its id and zero or two networks err. -/
theorem getAgencyId_unique_network_witness :
    (⟨"r", none, "s", "l"⟩ : GtfsRoute).agency_id = none ∧
    get_agency_id ⟨"r", none, "s", "l"⟩ ⟨[⟨"n1"⟩]⟩ = .ok "n1" ∧
    (∃ e, get_agency_id ⟨"r", none, "s", "l"⟩ ⟨[⟨"n1"⟩, ⟨"n2"⟩]⟩ = .error (.msg e)) ∧
    (∃ e, get_agency_id ⟨"r", none, "s", "l"⟩ ⟨[]⟩ = .error (.msg e)) :=
  ⟨rfl,
   (getAgencyId_unique_network ⟨"r", none, "s", "l"⟩ ⟨[⟨"n1"⟩]⟩ rfl).1 ⟨"n1"⟩ rfl,
   (getAgencyId_unique_network ⟨"r", none, "s", "l"⟩ ⟨[⟨"n1"⟩, ⟨"n2"⟩]⟩ rfl).2.1 (by decide),
   (getAgencyId_unique_network ⟨"r", none, "s", "l"⟩ ⟨[]⟩ rfl).2.1 (by decide)⟩

/-- C7: when `Model::new` succeeds, `into_collections` gives back
exactly the collections the model was built from; construction never
modifies them. -/
theorem intoCollections_identity {c : Collections} {m : Model}
    (h : Model.new c = .ok m) : m.into_collections = c :=
  (modelNew_ok_inv h).1

/-- C7 witness: the fixture round-trips through construction and
`into_collections`. -/
theorem intoCollections_identity_witness :
    Model.new cFix = .ok (modelOf (Model.new cFix)) ∧
    (modelOf (Model.new cFix)).into_collections = cFix :=
  ⟨rfl, intoCollections_identity (rfl : Model.new cFix = .ok (modelOf (Model.new cFix)))⟩

/-- C8: serializing a model is exactly serializing its owned
collections, deserializing re-runs the full construction, so a
deserialized model is always re-validated: round-tripping a
constructed model re-validates and succeeds on the same collections,
and deserialization fails exactly when `Model::new` fails. -/
theorem serde_delegation (c : Collections) (m : Model) :
    (Model.new c = .ok m →
      m.serialize = m.collections ∧
      Model.deserialize m.serialize = Model.new c ∧
      ∃ m2, Model.deserialize m.serialize = .ok m2 ∧ m2.collections = m.collections) ∧
    (∀ e, Model.new c = .error e → Model.deserialize c = .error e) := by
  constructor
  · intro h
    have hc : m.collections = c := (modelNew_ok_inv h).1
    refine ⟨rfl, ?_, ?_⟩
    · show Model.new m.collections = Model.new c
      rw [hc]
    · refine ⟨m, ?_, rfl⟩
      show Model.new m.collections = .ok m
      rw [hc, h]
  · intro e he
    exact he

/-- C8 witness: the fixture model round-trips through serialization
with re-validation, and the bad-transfer collections fail
deserialization with the same error as construction. -/
theorem serde_delegation_witness :
    Model.new cFix = .ok (modelOf (Model.new cFix)) ∧
    (modelOf (Model.new cFix)).serialize = (modelOf (Model.new cFix)).collections ∧
    Model.deserialize ((modelOf (Model.new cFix)).serialize) = Model.new cFix ∧
    Model.new cBadTransfer = .error (.invalidId "transfer.from_stop_id" "invalid") ∧
    Model.deserialize cBadTransfer = .error (.invalidId "transfer.from_stop_id" "invalid") :=
  ⟨rfl,
   ((serde_delegation cFix (modelOf (Model.new cFix))).1 rfl).1,
   ((serde_delegation cFix (modelOf (Model.new cFix))).1 rfl).2.1,
   rfl,
   (serde_delegation cBadTransfer Model.empty).2 _ rfl⟩

/-- C9: exactly the six shortcut relations carry declared weight 1.9,
every other registered relation has the default weight 1.0, each
unordered endpoint pair is served by at most one registered relation,
and the dispatch picks exactly the relation registered for a pair. -/
theorem getCorresponding_registry :
    (∀ d ∈ modelRelationDecls,
      (d.weightTenths = 19 ↔ d.name ∈ shortcutNames) ∧
      (d.weightTenths = 19 ∨ d.weightTenths = 10)) ∧
    modelRelationDecls.Pairwise
      (fun d1 d2 => d1.serves d2.source d2.target = false) ∧
    (∀ a b d, d ∈ candidatesFor a b → dispatchFor a b = some d) := by
  decide

/-- C6: `Collections::merge` merges the member collections
consecutively: it succeeds exactly when every id-keyed collection pair
is collision-free, in which case the receiver holds the union of both
bags; otherwise it fails with the duplicate-id error of the first
colliding collection, and every collection processed before the
failing one (including the partially merged failing one) keeps its
merged state, while later collections stay untouched by the
short-circuit. -/
theorem collectionsMerge_fail_fast (s c : Collections) :
    ((Collections.merge s c).2 = none ↔ canMergeAll s c) ∧
    (Collections.merge s c).2 = (mergeFieldErrs s c).findSome? id ∧
    (∀ e, (Collections.merge s c).2 = some e → ∃ i, e = Err.duplicateId i) ∧
    (canMergeAll s c → Collections.merge s c = (unionAll s c, none)) ∧
    ((Collections.merge s c).1.contributors = (s.contributors.merge c.contributors).1) ∧
    (prefixOk s c 1 →
      (Collections.merge s c).1.datasets = (s.datasets.merge c.datasets).1) ∧
    (prefixOk s c 2 →
      (Collections.merge s c).1.networks = (s.networks.merge c.networks).1) ∧
    (prefixOk s c 3 →
      (Collections.merge s c).1.commercial_modes = (s.commercial_modes.merge c.commercial_modes).1) ∧
    (prefixOk s c 4 →
      (Collections.merge s c).1.lines = (s.lines.merge c.lines).1) ∧
    (prefixOk s c 5 →
      (Collections.merge s c).1.routes = (s.routes.merge c.routes).1) ∧
    (prefixOk s c 6 →
      (Collections.merge s c).1.vehicle_journeys = (s.vehicle_journeys.merge c.vehicle_journeys).1) ∧
    (prefixOk s c 7 →
      (Collections.merge s c).1.physical_modes = (s.physical_modes.merge c.physical_modes).1) ∧
    (prefixOk s c 8 →
      (Collections.merge s c).1.stop_areas = (s.stop_areas.merge c.stop_areas).1) ∧
    (prefixOk s c 9 →
      (Collections.merge s c).1.stop_points = (s.stop_points.merge c.stop_points).1) ∧
    (prefixOk s c 10 →
      (Collections.merge s c).1.feed_infos = mapExtend s.feed_infos c.feed_infos) ∧
    (prefixOk s c 10 →
      (Collections.merge s c).1.calendars = (s.calendars.merge c.calendars).1) ∧
    (prefixOk s c 11 →
      (Collections.merge s c).1.companies = (s.companies.merge c.companies).1) ∧
    (prefixOk s c 12 →
      (Collections.merge s c).1.comments = (s.comments.merge c.comments).1) ∧
    (prefixOk s c 13 →
      (Collections.merge s c).1.equipments = (s.equipments.merge c.equipments).1) ∧
    (prefixOk s c 14 →
      (Collections.merge s c).1.transfers = s.transfers.merge c.transfers) ∧
    (prefixOk s c 14 →
      (Collections.merge s c).1.trip_properties = (s.trip_properties.merge c.trip_properties).1) ∧
    (prefixOk s c 15 →
      (Collections.merge s c).1.geometries = (s.geometries.merge c.geometries).1) ∧
    (prefixOk s c 16 →
      (Collections.merge s c).1.admin_stations = s.admin_stations.merge c.admin_stations) := by
  refine ⟨collectionsMerge_none_iff s c, collectionsMerge_err s c,
    collectionsMerge_err_dup s c, collectionsMerge_union s c,
    ?_, ?_, ?_, ?_, ?_, ?_, ?_, ?_, ?_, ?_, ?_, ?_, ?_, ?_, ?_, ?_, ?_, ?_, ?_⟩
  · unfold Collections.merge
    repeat' split
    all_goals simp_all
  · intro h
    unfold prefixOk mergeFieldErrs at h
    simp only [List.take, List.mem_cons, List.not_mem_nil, or_false, forall_eq_or_imp,
      forall_eq] at h
    unfold Collections.merge
    repeat' split
    all_goals simp_all
  · intro h
    unfold prefixOk mergeFieldErrs at h
    simp only [List.take, List.mem_cons, List.not_mem_nil, or_false, forall_eq_or_imp,
      forall_eq] at h
    unfold Collections.merge
    repeat' split
    all_goals simp_all
  · intro h
    unfold prefixOk mergeFieldErrs at h
    simp only [List.take, List.mem_cons, List.not_mem_nil, or_false, forall_eq_or_imp,
      forall_eq] at h
    unfold Collections.merge
    repeat' split
    all_goals simp_all
  · intro h
    unfold prefixOk mergeFieldErrs at h
    simp only [List.take, List.mem_cons, List.not_mem_nil, or_false, forall_eq_or_imp,
      forall_eq] at h
    unfold Collections.merge
    repeat' split
    all_goals simp_all
  · intro h
    unfold prefixOk mergeFieldErrs at h
    simp only [List.take, List.mem_cons, List.not_mem_nil, or_false, forall_eq_or_imp,
      forall_eq] at h
    unfold Collections.merge
    repeat' split
    all_goals simp_all
  · intro h
    unfold prefixOk mergeFieldErrs at h
    simp only [List.take, List.mem_cons, List.not_mem_nil, or_false, forall_eq_or_imp,
      forall_eq] at h
    unfold Collections.merge
    repeat' split
    all_goals simp_all
  · intro h
    unfold prefixOk mergeFieldErrs at h
    simp only [List.take, List.mem_cons, List.not_mem_nil, or_false, forall_eq_or_imp,
      forall_eq] at h
    unfold Collections.merge
    repeat' split
    all_goals simp_all
  · intro h
    unfold prefixOk mergeFieldErrs at h
    simp only [List.take, List.mem_cons, List.not_mem_nil, or_false, forall_eq_or_imp,
      forall_eq] at h
    unfold Collections.merge
    repeat' split
    all_goals simp_all
  · intro h
    unfold prefixOk mergeFieldErrs at h
    simp only [List.take, List.mem_cons, List.not_mem_nil, or_false, forall_eq_or_imp,
      forall_eq] at h
    unfold Collections.merge
    repeat' split
    all_goals simp_all
  · intro h
    unfold prefixOk mergeFieldErrs at h
    simp only [List.take, List.mem_cons, List.not_mem_nil, or_false, forall_eq_or_imp,
      forall_eq] at h
    unfold Collections.merge
    repeat' split
    all_goals simp_all
  · intro h
    unfold prefixOk mergeFieldErrs at h
    simp only [List.take, List.mem_cons, List.not_mem_nil, or_false, forall_eq_or_imp,
      forall_eq] at h
    unfold Collections.merge
    repeat' split
    all_goals simp_all
  · intro h
    unfold prefixOk mergeFieldErrs at h
    simp only [List.take, List.mem_cons, List.not_mem_nil, or_false, forall_eq_or_imp,
      forall_eq] at h
    unfold Collections.merge
    repeat' split
    all_goals simp_all
  · intro h
    unfold prefixOk mergeFieldErrs at h
    simp only [List.take, List.mem_cons, List.not_mem_nil, or_false, forall_eq_or_imp,
      forall_eq] at h
    unfold Collections.merge
    repeat' split
    all_goals simp_all
  · intro h
    unfold prefixOk mergeFieldErrs at h
    simp only [List.take, List.mem_cons, List.not_mem_nil, or_false, forall_eq_or_imp,
      forall_eq] at h
    unfold Collections.merge
    repeat' split
    all_goals simp_all
  · intro h
    unfold prefixOk mergeFieldErrs at h
    simp only [List.take, List.mem_cons, List.not_mem_nil, or_false, forall_eq_or_imp,
      forall_eq] at h
    unfold Collections.merge
    repeat' split
    all_goals simp_all
  · intro h
    unfold prefixOk mergeFieldErrs at h
    simp only [List.take, List.mem_cons, List.not_mem_nil, or_false, forall_eq_or_imp,
      forall_eq] at h
    unfold Collections.merge
    repeat' split
    all_goals simp_all
  · intro h
    unfold prefixOk mergeFieldErrs at h
    simp only [List.take, List.mem_cons, List.not_mem_nil, or_false, forall_eq_or_imp,
      forall_eq] at h
    unfold Collections.merge
    repeat' split
    all_goals simp_all
  · intro h
    unfold prefixOk mergeFieldErrs at h
    simp only [List.take, List.mem_cons, List.not_mem_nil, or_false, forall_eq_or_imp,
      forall_eq] at h
    unfold Collections.merge
    repeat' split
    all_goals simp_all

/-- C6 witness: merging ids a,b into b,c fails with DuplicateId b while
keeping the entities pushed before the collision; merging a,b into c,d
succeeds with the union of length 4; the partial-state clauses applied
at the disjoint pair. -/
theorem collectionsMerge_fail_fast_witness :
    (Collections.merge cMergeY cMergeX).2 = some (Err.duplicateId "b") ∧
    (∃ i, Err.duplicateId "b" = Err.duplicateId i) ∧
    (Collections.merge cMergeY cMergeX).1.contributors.items = ⟨"b"⟩ :: ⟨"c"⟩ :: [⟨"a"⟩] ∧
    (canMergeAll cMergeD cMergeX) ∧
    (Collections.merge cMergeD cMergeX = (unionAll cMergeD cMergeX, none)) ∧
    (Collections.merge cMergeD cMergeX).1.contributors.items.length = 4 ∧
    (Collections.merge cMergeD cMergeX).1.contributors = (cMergeD.contributors.merge cMergeX.contributors).1 ∧
    (Collections.merge cMergeD cMergeX).1.datasets = (cMergeD.datasets.merge cMergeX.datasets).1 ∧
    (Collections.merge cMergeD cMergeX).1.networks = (cMergeD.networks.merge cMergeX.networks).1 ∧
    (Collections.merge cMergeD cMergeX).1.commercial_modes = (cMergeD.commercial_modes.merge cMergeX.commercial_modes).1 ∧
    (Collections.merge cMergeD cMergeX).1.lines = (cMergeD.lines.merge cMergeX.lines).1 ∧
    (Collections.merge cMergeD cMergeX).1.routes = (cMergeD.routes.merge cMergeX.routes).1 ∧
    (Collections.merge cMergeD cMergeX).1.vehicle_journeys = (cMergeD.vehicle_journeys.merge cMergeX.vehicle_journeys).1 ∧
    (Collections.merge cMergeD cMergeX).1.physical_modes = (cMergeD.physical_modes.merge cMergeX.physical_modes).1 ∧
    (Collections.merge cMergeD cMergeX).1.stop_areas = (cMergeD.stop_areas.merge cMergeX.stop_areas).1 ∧
    (Collections.merge cMergeD cMergeX).1.stop_points = (cMergeD.stop_points.merge cMergeX.stop_points).1 ∧
    (Collections.merge cMergeD cMergeX).1.feed_infos = mapExtend cMergeD.feed_infos cMergeX.feed_infos ∧
    (Collections.merge cMergeD cMergeX).1.calendars = (cMergeD.calendars.merge cMergeX.calendars).1 ∧
    (Collections.merge cMergeD cMergeX).1.companies = (cMergeD.companies.merge cMergeX.companies).1 ∧
    (Collections.merge cMergeD cMergeX).1.comments = (cMergeD.comments.merge cMergeX.comments).1 ∧
    (Collections.merge cMergeD cMergeX).1.equipments = (cMergeD.equipments.merge cMergeX.equipments).1 ∧
    (Collections.merge cMergeD cMergeX).1.transfers = cMergeD.transfers.merge cMergeX.transfers ∧
    (Collections.merge cMergeD cMergeX).1.trip_properties = (cMergeD.trip_properties.merge cMergeX.trip_properties).1 ∧
    (Collections.merge cMergeD cMergeX).1.geometries = (cMergeD.geometries.merge cMergeX.geometries).1 ∧
    (Collections.merge cMergeD cMergeX).1.admin_stations = cMergeD.admin_stations.merge cMergeX.admin_stations :=
  ⟨by decide,
   (collectionsMerge_fail_fast cMergeY cMergeX).2.2.1 (Err.duplicateId "b") (by decide),
   by decide,
   by decide,
   (collectionsMerge_fail_fast cMergeD cMergeX).2.2.2.1 (by decide),
   by decide,
   (collectionsMerge_fail_fast cMergeD cMergeX).2.2.2.2.1,
   (collectionsMerge_fail_fast cMergeD cMergeX).2.2.2.2.2.1 (by decide),
   (collectionsMerge_fail_fast cMergeD cMergeX).2.2.2.2.2.2.1 (by decide),
   (collectionsMerge_fail_fast cMergeD cMergeX).2.2.2.2.2.2.2.1 (by decide),
   (collectionsMerge_fail_fast cMergeD cMergeX).2.2.2.2.2.2.2.2.1 (by decide),
   (collectionsMerge_fail_fast cMergeD cMergeX).2.2.2.2.2.2.2.2.2.1 (by decide),
   (collectionsMerge_fail_fast cMergeD cMergeX).2.2.2.2.2.2.2.2.2.2.1 (by decide),
   (collectionsMerge_fail_fast cMergeD cMergeX).2.2.2.2.2.2.2.2.2.2.2.1 (by decide),
   (collectionsMerge_fail_fast cMergeD cMergeX).2.2.2.2.2.2.2.2.2.2.2.2.1 (by decide),
   (collectionsMerge_fail_fast cMergeD cMergeX).2.2.2.2.2.2.2.2.2.2.2.2.2.1 (by decide),
   (collectionsMerge_fail_fast cMergeD cMergeX).2.2.2.2.2.2.2.2.2.2.2.2.2.2.1 (by decide),
   (collectionsMerge_fail_fast cMergeD cMergeX).2.2.2.2.2.2.2.2.2.2.2.2.2.2.2.1 (by decide),
   (collectionsMerge_fail_fast cMergeD cMergeX).2.2.2.2.2.2.2.2.2.2.2.2.2.2.2.2.1 (by decide),
   (collectionsMerge_fail_fast cMergeD cMergeX).2.2.2.2.2.2.2.2.2.2.2.2.2.2.2.2.2.1 (by decide),
   (collectionsMerge_fail_fast cMergeD cMergeX).2.2.2.2.2.2.2.2.2.2.2.2.2.2.2.2.2.2.1 (by decide),
   (collectionsMerge_fail_fast cMergeD cMergeX).2.2.2.2.2.2.2.2.2.2.2.2.2.2.2.2.2.2.2.1 (by decide),
   (collectionsMerge_fail_fast cMergeD cMergeX).2.2.2.2.2.2.2.2.2.2.2.2.2.2.2.2.2.2.2.2.1 (by decide),
   (collectionsMerge_fail_fast cMergeD cMergeX).2.2.2.2.2.2.2.2.2.2.2.2.2.2.2.2.2.2.2.2.2.1 (by decide),
   (collectionsMerge_fail_fast cMergeD cMergeX).2.2.2.2.2.2.2.2.2.2.2.2.2.2.2.2.2.2.2.2.2.2 (by decide)⟩

/-- C10: `Collections::merge` never fails because of `feed_infos`:
success is equivalent to collision-freedom of the id-keyed collections
alone; once the feed step is reached the maps are combined with extend
semantics, and a key present in both bags silently takes the incoming
bag's value instead of being reported as a collision. -/
theorem feedInfos_extend_overwrite (s c : Collections) :
    ((Collections.merge s c).2 = none ↔ canMergeAll s c) ∧
    (prefixOk s c 10 →
      (Collections.merge s c).1.feed_infos = mapExtend s.feed_infos c.feed_infos) ∧
    ((c.feed_infos.map Prod.fst).Nodup → ∀ k v,
      mapLookup c.feed_infos k = some v →
      mapLookup (mapExtend s.feed_infos c.feed_infos) k = some v) ∧
    ((c.feed_infos.map Prod.fst).Nodup → ∀ k,
      mapLookup c.feed_infos k = none →
      mapLookup (mapExtend s.feed_infos c.feed_infos) k = mapLookup s.feed_infos k) := by
  refine ⟨collectionsMerge_none_iff s c, ?_, ?_, ?_⟩
  · intro h
    unfold prefixOk mergeFieldErrs at h
    simp only [List.take, List.mem_cons, List.not_mem_nil, or_false, forall_eq_or_imp,
      forall_eq] at h
    unfold Collections.merge
    repeat' split
    all_goals simp_all
  · intro hnd k v hv
    rw [mapLookup_extend s.feed_infos c.feed_infos hnd k, hv]
  · intro hnd k hv
    rw [mapLookup_extend s.feed_infos c.feed_infos hnd k, hv]

/-- C10 witness: with disjoint collections and overlapping feed keys,
the merge succeeds, the feed maps are extended, and the shared key k
carries the incoming value v2. -/
theorem feedInfos_extend_overwrite_witness :
    prefixOk cFeedS cFeedC 10 ∧
    (Collections.merge cFeedS cFeedC).2 = none ∧
    (Collections.merge cFeedS cFeedC).1.feed_infos =
      mapExtend cFeedS.feed_infos cFeedC.feed_infos ∧
    mapLookup cFeedC.feed_infos "k" = some "v2" ∧
    mapLookup (mapExtend cFeedS.feed_infos cFeedC.feed_infos) "k" = some "v2" ∧
    mapLookup (mapExtend cFeedS.feed_infos cFeedC.feed_infos) "a" = some "x" :=
  ⟨by decide, by decide,
   (feedInfos_extend_overwrite cFeedS cFeedC).2.1 (by decide),
   by decide,
   (feedInfos_extend_overwrite cFeedS cFeedC).2.2.1 (by decide) "k" "v2" (by decide),
   ((feedInfos_extend_overwrite cFeedS cFeedC).2.2.2 (by decide) "a" (by decide)).trans
     (by decide)⟩
